import Mathlib

/-!
Verification of the FastAPI placeholder-image backend (`src/main.py`).

The development shallowly embeds the program's algorithmic core:

* the CPython `random.Random` pseudo-random generator (MT19937) that the
  synthesizer instantiates per call (`rnd = random.Random(seed)`, line 110
  of `src/main.py`); the generator is an external collaborator (CPython's
  `_random` module), modelled word for word from its reference algorithm
  and cross-checked against the interpreter's actual output values;
* the greedy text wrapper `wrap_text` (lines 143–155);
* the parameter extraction of `_generate_placeholder_image`
  (lines 108–170), captured as a `RenderPlan` handed to the deterministic
  Pillow rasterizer (modelled as an external collaborator, since claims
  speak about the drawn parameters, not Pillow's pixel loops);
* the `/api/generate` handler (lines 173–190) with its pydantic
  validation (lines 24–28), and the `/test` diagnostics endpoint
  (lines 51–93).

Machine integers are `Nat`/`Int` with explicit `% 2^32` where the
generator wraps at 32 bits.  The 624-word `uint32` state array of the
generator is packed into a single natural number, word `i` occupying bits
`[32*i, 32*i+32)`; this keeps every state operation a primitive
arithmetic step and is observationally identical to the C array.
-/

namespace Backend

set_option maxRecDepth 1000000

/-! ## Generic bounded iteration -/

/-- Iterate a state-transformer a fixed number of times (the `for` loops
of the generator's seeding and twisting phases all have static trip
counts). -/
def iterSt {α : Type} (f : α → α) : Nat → α → α
  | 0, s => s
  | n + 1, s => iterSt f n (f s)

/-! ## MT19937, as used by CPython `random.Random` -/

/-- Reduction modulo 2^32, the word size of the generator state. -/
def u32mod (x : Nat) : Nat := x % 4294967296

/-- Word `i` of a packed 624-word state. -/
def getWord (st i : Nat) : Nat := st >>> (32 * i) % 4294967296

/-- Packed state with word `i` replaced by `v` (for `v < 2^32`). -/
def setWord (st i v : Nat) : Nat :=
  st - (getWord st i <<< (32 * i)) + (v <<< (32 * i))

/-- One step of `init_genrand`: given `(state, i)`, set
`mt[i] = (1812433253 * (mt[i-1] ^ (mt[i-1] >> 30)) + i) mod 2^32` and
advance `i`. -/
def igStep (s : Nat × Nat) : Nat × Nat :=
  let prev := getWord s.1 (s.2 - 1)
  (setWord s.1 s.2 (u32mod (1812433253 * (prev ^^^ (prev >>> 30)) + s.2)), s.2 + 1)

/-- `init_genrand(s)`: the 624-word state grown from a single seed word
(word 0 is `s mod 2^32`, and the loop fills words 1 to 623). -/
def init_genrand (s : Nat) : Nat :=
  (iterSt igStep 623 (u32mod s, 1)).1

/-- One step of the first `init_by_array` mixing loop:
`mt[i] = ((mt[i] ^ ((mt[i-1] ^ (mt[i-1] >> 30)) * 1664525)) + key[j] + j)`
modulo 2^32, with `i` wrapping as `mt[0] := mt[623]; i := 1` and `j`
cycling over the key. -/
def ibaStep1 (key : List Nat) (s : Nat × Nat × Nat) : Nat × Nat × Nat :=
  let st := s.1
  let i := s.2.1
  let j := s.2.2
  let prev := getWord st (i - 1)
  let cur := getWord st i
  let v := u32mod ((cur ^^^ u32mod ((prev ^^^ (prev >>> 30)) * 1664525)) + key.getD j 0 + j)
  let st1 := setWord st i v
  let i1 := i + 1
  let st2 := if i1 ≥ 624 then setWord st1 0 (getWord st1 623) else st1
  let i2 := if i1 ≥ 624 then 1 else i1
  let j1 := if j + 1 ≥ key.length then 0 else j + 1
  (st2, i2, j1)

/-- One step of the second `init_by_array` mixing loop:
`mt[i] = ((mt[i] ^ ((mt[i-1] ^ (mt[i-1] >> 30)) * 1566083941)) - i)`
modulo 2^32 (the subtraction wraps, hence the added `2^32`), with the
same wrap-around of `i`. -/
def ibaStep2 (s : Nat × Nat) : Nat × Nat :=
  let st := s.1
  let i := s.2
  let prev := getWord st (i - 1)
  let cur := getWord st i
  let v := u32mod ((cur ^^^ u32mod ((prev ^^^ (prev >>> 30)) * 1566083941)) + 4294967296 - i)
  let st1 := setWord st i v
  let i1 := i + 1
  let st2 := if i1 ≥ 624 then setWord st1 0 (getWord st1 623) else st1
  let i2 := if i1 ≥ 624 then 1 else i1
  (st2, i2)

/-- State after `init_genrand(19650218)` and the first `init_by_array`
mixing loop over `key` (`max(624, len(key))` iterations starting at
`i = 1`, `j = 0`). -/
def seedPhase1 (key : List Nat) : Nat × Nat × Nat :=
  iterSt (ibaStep1 key) (max 624 key.length) (init_genrand 19650218, 1, 0)

/-- State after the second `init_by_array` mixing loop (623 iterations
continuing from where the first loop left `i`). -/
def seedPhase2 (key : List Nat) : Nat × Nat :=
  iterSt ibaStep2 623 ((seedPhase1 key).1, (seedPhase1 key).2.1)

/-- `init_by_array(key)`: both mixing loops, then `mt[0] = 0x80000000`. -/
def init_by_array (key : List Nat) : Nat :=
  setWord (seedPhase2 key).1 0 2147483648

/-- One in-place step of the MT19937 twist at index `i`:
`y = (mt[i] & 0x80000000) | (mt[i+1 mod 624] & 0x7fffffff)`;
`mt[i] = mt[(i+397) mod 624] ^ (y >> 1) ^ (y odd ? 0x9908b0df : 0)`.
Indices above `i` read the old block and indices below `i` the already
updated one, exactly as the reference in-place loop does. -/
def twistStep (s : Nat × Nat) : Nat × Nat :=
  let st := s.1
  let i := s.2
  let y := getWord st i / 2147483648 * 2147483648 + getWord st ((i + 1) % 624) % 2147483648
  let mag := if y % 2 = 1 then 2567483615 else 0
  let v := getWord st ((i + 397) % 624) ^^^ (y >>> 1) ^^^ mag
  (setWord st i v, i + 1)

/-- Regenerate the whole 624-word block. -/
def twist (st : Nat) : Nat := (iterSt twistStep 624 (st, 0)).1

/-- MT19937 tempering of one raw state word into an output word. -/
def temper (y0 : Nat) : Nat :=
  let y1 := y0 ^^^ (y0 >>> 11)
  let y2 := y1 ^^^ ((y1 <<< 7) &&& 2636928640)
  let y3 := y2 ^^^ ((y2 <<< 15) &&& 4022730752)
  y3 ^^^ (y3 >>> 18)

/-- State of one `random.Random` instance: the packed 624-word array and
the read index into the current block. -/
structure MTState where
  mt : Nat
  idx : Nat
deriving DecidableEq

/-- Fueled 32-bit chunking of a natural number, little-endian (the fuel
`n` itself always suffices, since `n` has at most `n` words). -/
def toWordsAux : Nat → Nat → List Nat
  | 0, _ => []
  | fuel + 1, n => if n = 0 then [] else u32mod n :: toWordsAux fuel (n >>> 32)

/-- Little-endian 32-bit words of a natural number. -/
def toWords (n : Nat) : List Nat := toWordsAux n n

/-- The key CPython derives from an integer seed: the absolute value
split into little-endian 32-bit words (`[0]` for seed 0). -/
def seedKey (seed : Int) : List Nat :=
  if seed.natAbs = 0 then [0] else toWords seed.natAbs

/-- `random.Random(seed)`: a freshly seeded generator.  Line 110 of
`src/main.py` runs this once per synthesis call; no ambient generator
state is read. -/
def mkRandom (seed : Int) : MTState :=
  { mt := init_by_array (seedKey seed), idx := 624 }

/-- `genrand_uint32`: draw one tempered 32-bit word, twisting first when
the current block is exhausted. -/
def genrandU32 (s : MTState) : Nat × MTState :=
  if s.idx ≥ 624 then
    let mt := twist s.mt
    (temper (getWord mt 0), { mt := mt, idx := 1 })
  else
    (temper (getWord s.mt s.idx), { mt := s.mt, idx := s.idx + 1 })

/-- `getrandbits(k)` for `1 ≤ k ≤ 32`: the top `k` bits of one 32-bit
draw.  (Every draw in this program needs at most 11 bits.) -/
def getrandbits (k : Nat) (s : MTState) : Nat × MTState :=
  ((genrandU32 s).1 >>> (32 - k), (genrandU32 s).2)

/-- Fueled bit-length (`int.bit_length()`); the fuel `n` itself always
suffices.  Fueled rather than well-founded so it reduces in the kernel. -/
def bitLengthAux : Nat → Nat → Nat
  | 0, _ => 0
  | fuel + 1, n => if n = 0 then 0 else bitLengthAux fuel (n / 2) + 1

/-- Number of binary digits of `n`. -/
def bitLength (n : Nat) : Nat := bitLengthAux n n

/-- Rejection loop of CPython `_randbelow_with_getrandbits`: redraw `k`
bits while the draw is `≥ n`.  Fueled, because the reference loop
terminates only with probability 1; on fuel exhaustion (probability
`2^-64` per call there) we return 0, which lies in `[0, n)`, so the
range facts below hold unconditionally. -/
def randbelowLoop (n k : Nat) : Nat → MTState → Nat × MTState
  | 0, s => (0, s)
  | fuel + 1, s =>
    let p := getrandbits k s
    if p.1 < n then p else randbelowLoop n k fuel p.2

/-- `Random._randbelow(n)`: a draw from `[0, n)` (and 0 when `n = 0`). -/
def randbelow (n : Nat) (s : MTState) : Nat × MTState :=
  if n = 0 then (0, s) else randbelowLoop n (bitLength n) 64 s

/-- `Random.randint(a, b)` = `randrange(a, b + 1)` =
`a + _randbelow(b + 1 - a)`.  Both endpoints are inclusive.  (CPython
raises for `b < a`; the program only calls it with `a ≤ b`.) -/
def randint (a b : Int) (s : MTState) : Int × MTState :=
  (a + Int.ofNat (randbelow (b + 1 - a).toNat s).1, (randbelow (b + 1 - a).toNat s).2)

/-! ## Float64 constant products

`_generate_placeholder_image` computes `int(min(width, height) * 0.3)`
and friends.  The literals 0.3, 0.6, 0.08 and 0.04 are IEEE-754 binary64
values `5404319552844595 / 2^54`, `5404319552844595 / 2^53`,
`5764607523034235 / 2^56` and `5764607523034235 / 2^57`; multiplying by
an exactly representable integer `m ≤ 1024` rounds the exact product to
53 significant bits (ties to even), and `int(...)` then truncates toward
zero.  `floatMulTrunc m num shift` reproduces `int(m * (num / 2^shift))`
exactly (checked against the interpreter over the whole validated
dimension range). -/

/-- Round `v` to a multiple of `2^k`, ties to even. -/
def roundEven (v k : Nat) : Nat :=
  if k = 0 then v else
    let q := v >>> k
    let r := v % 2 ^ k
    let half := 2 ^ (k - 1)
    if half < r ∨ (r = half ∧ q % 2 = 1) then (q + 1) <<< k else q <<< k

/-- `int(m * c)` where `c` is the binary64 value `num / 2^shift` and `m`
is a nonnegative integer small enough to be exact in binary64. -/
def floatMulTrunc (m num shift : Nat) : Nat :=
  let v := m * num
  let L := bitLength v
  roundEven v (L - 53) >>> shift

/-- `int(m * 0.3)`: the lower radius bound of a glow blob for
`m = min(width, height)` (line 120). -/
def glowRadiusLo (m : Nat) : Nat := floatMulTrunc m 5404319552844595 54

/-- `int(m * 0.6)`: the upper radius bound of a glow blob (line 120). -/
def glowRadiusHi (m : Nat) : Nat := floatMulTrunc m 5404319552844595 53

/-- `int(m * 0.08)`: the card margin (line 132). -/
def cardMarginOf (m : Nat) : Nat := floatMulTrunc m 5764607523034235 56

/-- `int(m * 0.04)`: the font-size base (line 139). -/
def fontSizeBase (m : Nat) : Nat := floatMulTrunc m 5764607523034235 57

/-! ## Text wrapper (`wrap_text`, lines 143–155) -/

/-- Whitespace class of Python `str.split()` with no separator: the
exact set of code points satisfying `Py_UNICODE_ISSPACE` — U+0009–000D,
U+001C–001F, U+0020, U+0085, U+00A0, U+1680, U+2000–200A, U+2028,
U+2029, U+202F, U+205F and U+3000 (enumerated from the interpreter). -/
def pyIsSpace (c : Char) : Bool :=
  (9 ≤ c.toNat ∧ c.toNat ≤ 13) ∨ (28 ≤ c.toNat ∧ c.toNat ≤ 32) ∨
  c.toNat = 133 ∨ c.toNat = 160 ∨ c.toNat = 5760 ∨
  (8192 ≤ c.toNat ∧ c.toNat ≤ 8202) ∨ c.toNat = 8232 ∨ c.toNat = 8233 ∨
  c.toNat = 8239 ∨ c.toNat = 8287 ∨ c.toNat = 12288

/-- Accumulating scan behind `pySplit`: `cur` holds the characters of the
word in progress, in reverse. -/
def pySplitAux : List Char → List Char → List String
  | [], cur => if cur.isEmpty then [] else [String.mk cur.reverse]
  | c :: cs, cur =>
    if pyIsSpace c then
      if cur.isEmpty then pySplitAux cs [] else String.mk cur.reverse :: pySplitAux cs []
    else
      pySplitAux cs (c :: cur)

/-- `text.split()`: split on whitespace runs, discarding empty pieces. -/
def pySplit (text : String) : List String := pySplitAux text.toList []

/-- `" ".join(ws)`. -/
def joinWords : List String → String
  | [] => ""
  | [w] => w
  | w :: ws => w ++ " " ++ joinWords ws

/-- The loop guard of `wrap_text`, line 148:
`sum(len(x) for x in line) + len(line) + len(w)`.  This equals the
length of `" ".join(line + [w])` (the candidate line with its
inter-word spaces). -/
def lineCost (line : List String) (w : String) : Nat :=
  (line.map String.length).sum + line.length + w.length

/-- The word loop of `wrap_text` (lines 147–154): `line` is the current
line under construction and `lines` the emitted lines; after the loop,
a nonempty `line` is flushed. -/
def wrapAux (maxChars : Nat) : List String → List String → List String → List String
  | [], line, lines => if line.isEmpty then lines else lines ++ [joinWords line]
  | w :: ws, line, lines =>
    if lineCost line w > maxChars then
      wrapAux maxChars ws [w] (lines ++ [joinWords line])
    else
      wrapAux maxChars ws (line ++ [w]) lines

/-- `wrap_text(text, max_chars)`: greedy word wrap, truncated to the
first 6 lines (line 155: `return lines[:6]`). -/
def wrap_text (text : String) (maxChars : Nat) : List String :=
  (wrapAux maxChars (pySplit text) [] []).take 6

/-- Chunk-level view of the same loop: the lines before joining and
truncation, as lists of words.  Used to state the greedy properties. -/
def wrapChunks (maxChars : Nat) : List String → List String → List (List String)
  | [], line => if line.isEmpty then [] else [line]
  | w :: ws, line =>
    if lineCost line w > maxChars then
      line :: wrapChunks maxChars ws [w]
    else
      wrapChunks maxChars ws (line ++ [w])

/-! ## Procedural image synthesizer (`_generate_placeholder_image`) -/

/-- Parameters of one radial glow blob, lines 118–121: five successive
`randint` draws (center x, center y, radius, red, green) and the fixed
blue channel 255. -/
structure GlowBlob where
  cx : Int
  cy : Int
  radius : Int
  red : Int
  green : Int
  blue : Int
deriving DecidableEq

/-- One iteration of the glow loop (lines 117–121): the five draws, in
source order, threaded through the per-call generator. -/
def drawBlob (width height : Int) (g : MTState) : GlowBlob × MTState :=
  let p1 := randint 0 width g
  let p2 := randint 0 height p1.2
  let m := (min width height).toNat
  let p3 := randint (Int.ofNat (glowRadiusLo m)) (Int.ofNat (glowRadiusHi m)) p2.2
  let p4 := randint 80 180 p3.2
  let p5 := randint 80 180 p4.2
  ({ cx := p1.1, cy := p2.1, radius := p3.1, red := p4.1, green := p5.1, blue := 255 }, p5.2)

/-- The `for i in range(3)` glow loop, collecting blobs in order. -/
def drawBlobs : Nat → Int → Int → MTState → List GlowBlob × MTState
  | 0, _, _, g => ([], g)
  | n + 1, w, h, g =>
    ((drawBlob w h g).1 :: (drawBlobs n w h (drawBlob w h g).2).1,
     (drawBlobs n w h (drawBlob w h g).2).2)

/-- Everything `_generate_placeholder_image` feeds to the Pillow drawing
primitives: the deterministic rasterizer turns this plan into the pixel
buffer.  Fields follow lines 113–168 of the source. -/
structure RenderPlan where
  width : Int
  height : Int
  background : Int × Int × Int
  blobs : List GlowBlob
  cardMargin : Int
  cardColor : Int × Int × Int × Int
  cardBlurRadius : ℚ
  fontSize : Int
  textLines : List String
  lineSpacing : Int
  shadowOffset : Int × Int
  shadowColor : Int × Int × Int × Int
  textColor : Int × Int × Int × Int
deriving DecidableEq

/-- `_generate_placeholder_image(prompt, width, height, seed)` up to the
deterministic rasterization: a fresh generator is seeded from `seed`
(line 110) and the plan is computed from `(prompt, width, height)` and
that generator alone. -/
def synthesize (prompt : String) (width height : Int) (seed : Int) : RenderPlan :=
  let m := (min width height).toNat
  { width := width
    height := height
    background := (10, 12, 26)
    blobs := (drawBlobs 3 width height (mkRandom seed)).1
    cardMargin := Int.ofNat (cardMarginOf m)
    cardColor := (20, 24, 48, 180)
    cardBlurRadius := 1 / 2
    fontSize := max 18 (Int.ofNat (fontSizeBase m))
    textLines := wrap_text prompt 32
    lineSpacing := 8
    shadowOffset := (2, 2)
    shadowColor := (0, 0, 0, 255)
    textColor := (230, 240, 255, 255) }

/-- Per-invocation context that a synthesis call could in principle
observe: the state of any process-global generator and the wall clock.
The source seeds a local generator instead of touching either, so two
independent invocations differ only in this context. -/
structure CallContext where
  ambientRng : MTState
  wallClock : Nat

/-- One invocation of the synthesizer inside an arbitrary call context.
The body is exactly `synthesize`: line 110 scopes the pseudo-random
sequence to the call, so nothing from the context is read. -/
def synthesizeCall (_ctx : CallContext) (prompt : String) (width height seed : Int) : RenderPlan :=
  synthesize prompt width height seed

/-! ## Request/response contract layer (`/api/generate`) -/

/-- `GenerateRequest` (lines 24–28): pydantic parses the body into this
shape; `seed` is optional and unconstrained. -/
structure GenerateRequest where
  prompt : String
  width : Int
  height : Int
  seed : Option Int
deriving DecidableEq

/-- The pydantic field constraints (lines 25–27): prompt length in
[2, 280] (`min_length`/`max_length`), width and height in [256, 1024]
(`ge`/`le`).  FastAPI rejects a request violating any of these with
status 422 before the handler body runs. -/
def validRequest (r : GenerateRequest) : Bool :=
  decide (2 ≤ r.prompt.length) && decide (r.prompt.length ≤ 280) &&
  decide (256 ≤ r.width) && decide (r.width ≤ 1024) &&
  decide (256 ≤ r.height) && decide (r.height ≤ 1024)

/-- `GenerateResponse` (lines 31–38).  `seed` is a plain integer field:
the model cannot carry null there. -/
structure GenerateResponse where
  image_base64 : String
  mime_type : String
  width : Int
  height : Int
  prompt : String
  seed : Int
  generated_at : String
deriving DecidableEq

/-- Outcome of a `/api/generate` request: 200 with a body, 422 from
validation, or 500 from the handler's exception guard. -/
inductive HttpResult where
  | ok (resp : GenerateResponse)
  | validationError
  | serverError (detail : String)
deriving DecidableEq

/-- HTTP status of an outcome. -/
def statusCode : HttpResult → Nat
  | .ok _ => 200
  | .validationError => 422
  | .serverError _ => 500

/-- `int.from_bytes(bs, 'big')`. -/
def bytesToNatBE (bs : List Nat) : Nat :=
  bs.foldl (fun acc b => acc * 256 + b) 0

/-- Line 176: the request seed if present, else 4 bytes of `os.urandom`
read as a big-endian unsigned integer. -/
def resolvedSeed (reqSeed : Option Int) (urandom4 : List Nat) : Int :=
  match reqSeed with
  | some s => s
  | none => Int.ofNat (bytesToNatBE urandom4)

/-- The `/api/generate` handler (lines 173–190).  External effects are
oracles: `urandom4` is the 4-byte draw line 176 would make, and
`rasterize n plan` is the fallible Pillow render + PNG encode + base64
of the `n`-th attempt (`Except.error e` standing for a raised exception
with message `e`).  The body attempts attempt 0 once; any exception is
caught by the `except` clause (lines 189–190) and turned into a 500
with detail `"Generation failed: " ++ e`, untruncated. -/
def generate_image (req : GenerateRequest) (urandom4 : List Nat)
    (rasterize : Nat → RenderPlan → Except String String) (now : String) : HttpResult :=
  if validRequest req then
    let seed := resolvedSeed req.seed urandom4
    match rasterize 0 (synthesize req.prompt req.width req.height seed) with
    | .ok b64 =>
      .ok { image_base64 := b64, mime_type := "image/png", width := req.width,
            height := req.height, prompt := req.prompt, seed := seed, generated_at := now }
    | .error e => .serverError ("Generation failed: " ++ e)
  else
    .validationError

/-! ## Diagnostics endpoint (`/test`, lines 51–93) -/

/-- The optional database handle: `name` is present when the attribute
exists, and `listCollectionNames` either returns the names or raises. -/
structure DbHandle where
  name : Option String
  listCollectionNames : Except String (List String)

/-- Outcome of `from database import db` (line 65): the module may be
missing (ImportError), importing may raise some other exception, or it
may yield a handle that is possibly None. -/
inductive DbImport where
  | moduleMissing
  | importFailure (msg : String)
  | available (db : Option DbHandle)

/-- Presence of the two probed environment variables (lines 90–91). -/
structure EnvConfig where
  databaseUrlSet : Bool
  databaseNameSet : Bool

/-- The `/test` response object.  `database_url` and `database_name`
start as Python None (modelled by `Option.none`) and are overwritten
unconditionally at the end. -/
structure DiagResponse where
  backend : String
  database : String
  database_url : Option String
  database_name : Option String
  connection_status : String
  collections : List String
deriving DecidableEq

/-- `str(e)[:50]`: the 50-character truncation used by the diagnostics
messages (Python slices by code points, as `String.take` does). -/
def truncate50 (s : String) : String := String.mk (s.toList.take 50)

/-- The `/test` handler (lines 51–93).  Every collaborator failure is a
value of `DbImport` or `Except`, consumed totally: the function always
returns a response object, mirroring the source's blanket `except`
clauses. -/
def test_database (imp : DbImport) (env : EnvConfig) : DiagResponse :=
  let r0 : DiagResponse :=
    { backend := "✅ Running", database := "❌ Not Available",
      database_url := none, database_name := none,
      connection_status := "Not Connected", collections := [] }
  let r1 :=
    match imp with
    | .moduleMissing =>
      { r0 with database := "❌ Database module not found (run enable-database first)" }
    | .importFailure e =>
      { r0 with database := "❌ Error: " ++ truncate50 e }
    | .available none =>
      { r0 with database := "⚠️  Available but not initialized" }
    | .available (some db) =>
      let r2 :=
        { r0 with database := "✅ Available", database_url := some "✅ Configured",
                  database_name := some (match db.name with
                    | some n => n
                    | none => "✅ Connected"),
                  connection_status := "Connected" }
      match db.listCollectionNames with
      | .ok cols => { r2 with collections := cols.take 10, database := "✅ Connected & Working" }
      | .error e => { r2 with database := "⚠️  Connected but Error: " ++ truncate50 e }
  { r1 with
    database_url := some (if env.databaseUrlSet then "✅ Set" else "❌ Not Set"),
    database_name := some (if env.databaseNameSet then "✅ Set" else "❌ Not Set") }

/-! ## Reference generator states

Packed 624-word states along the seeding and first-twist runs of the
two seeds evaluated below, each cross-checked against the state the
CPython interpreter reaches for the same seed.  The midway states exist
so that no single kernel evaluation has to chain more than 312 steps. -/

/-- Packed state midway (312 steps) through `init_genrand(19650218)`. -/
def mtIGm : Nat :=
  43451447770933355967655871035138949693569261124825171477259371368242040963630315041640600927062429357342263245072047913504023898976222663001529237181465201772843534221011158941461788237762698589261273801769281502502593118350248735333713311198202497828243017791061617341960439265842889406544782867384102031255415178900271700980034168162099017956864365589687933957192069187376259297852575715811388574171215432492658087185762998133264937618221271755098965785706070432997411298302669325798217537933293030347163471750845422681163572671323163202114877642119962417042471289236322169711500740026105874938956762201603260389777781630279713951086029849345573805932629935728933211559110808097128740387659360937505283811305307347869883257125318992063172672017615398536223451585974537588286022205134009526045686872405388374260265035160946462461317145380067221477742827625033291004988186600847047377754436956112252765415547548408556447351514012263030872155378162443767249075800305742610089963329250678542759130875153917902877000807677462921581614667852151540757676825924685240218932446899250696312449506135479343622804623859202371994529890468382846930685411934794688331648287209458802119989744293689297836832290230577568486221523698209302874511121874762150532638410906132104470889309461291278796138128439899576644934370820510807927041579775331321262853219456273416624914629492046704521098886302371997733497169681590999013636545589526730424048338678309150088059101227216260252295312930593924952910598006343530852486415054899957422866806481309347647590361328438947697292746295807809428922793414666431031814032861628969263850718323415981880030858167528846350251046504303358726259363323070269072187751201049724611599535900338130652159317711611833200261613695454102202814578620205541009402153224278689166045349627866295907532129503895413832810001764573153936452102111555030652334240483122102594841884380674317392563630683854541905006240664521198153740937166191474997625752436218240484367957684741526689649510263592542862349097987484326349923217637403156985861455776990955562277159694815042715216724617281559276212445232985599228436390356449552586460255915535860776483174844518320695425225063695481080178103231631950275973599455300666837807626044694234147242514012101510230019527491077792176108322681805294472844587867838741311282738328647507874489747241806324255865685263010191263492795301111565976750841965370576184466410593308712339528181219905472475204122126760987352893962695606471420148579799216517439021817837338880498212480863841635080417758859006076745928135992556866011781792223422737565911596816399712199640792654318509917637608884290031624551158142734411201386157483991292013621678138939288482992546376894032653839238558962841745275990259484118213751656221934669102001560497906162914383442900645772006269349662366806111990602419656871248887642639965754962717384557626116538075248782173671677328111889848696227829607958952219328265125408926725048538271658360205449107884774215457740765053921576049468809462583970011502335658

/-- Packed state after `init_genrand(19650218)` (seed-independent). -/
def mtIG : Nat :=
  62685089405509111925910797243914719854890513935494713084094713797279779630627496305943786046941309007281293105221577504421353501605599255248785149356818580886163074212016138319710181437623915839386196989339984175865611290932895638485827512283879634622589907034847096838980553398268338905605705315464924834076955485269257682765843392777664062904318116756644819538761883164862381873685805923051342196114892111881287659915424456096361326051748180740843339721465950121631833352165428366344241754810081140762710579390137795215443629123183303201044796731629341661542390258966032612552126580439913324626563213547393121217728067632048719897064596438939163041106934301355643192260261867872030533878188557727018817797219012064641958276099544136480610826250078810896212505254064619595899307426216931651016613164877613570296351724055264357110051005104450572173606849938075379012356137114572525910752676385589168436483206759652170097284388598518122222819376116616668668677988651997615236221431416155794821321118852088948452164682783715959922435191327367306488124638818446090532334864386359317233873012285172875896330714873881780586230596002778688422250420590175698633544778262136505069053046737202152515000629854634631225453245996997340762744567896897683212149150732909707719966588817675821630380251456266588599804209831660991462715440400663143017564651072677052296295930367391822676512661642282350234567553218318066651318510488484545671729568971887621684270732981974442582657502555066960418690332945218280990034155505553171409775830458482159957769211244505225186771766058316021949327301666418107251589707938065072144733816368743637495699897181007119363672460040974223449086641663004605507793014252452324150238463715514559124307431648478948480649031081489229583165223570218974125422263886587593014744330199975749832650568652404661542746543584685860761547297457070273167102314576665676644281998277713093924236551494770138725647883566971887853912300960949802636372591951717316415323846182747445131420005722224687602711525724505110953736568981699982016588947035894059736087136235396798804019434387781559696138411966704777989194870090051835909943079457649936020314680876367897457337488804889342331824364904005266943816631681518612047693872607083945336048154993001716858914072302230374294986610531277637599664647525761147514008899238689946802093944865612982597431648203028809043429562401771290925843222821220221381984318518256971016750121270624021542153515130386081256853244444367484914891752438843250797295149886721543902585582757118492217204960123203770309672216674331373413106027454841661967870247822106376003696537006476355273043676224973894002060133928765135363584693312631060562155459381152426642778209514491263275588735458188352331628933634618912177576995916817414488324819680108333628484452298807271017999262374749573133359090629722111402666396222385680310709557844049479865847370371052888681758484468279513921172987571336140289500145715018352119752770038578015899178947425013401300127437407370742417936980607757405410607208376626705322894782663757703548808362869195819947150150865798288136994832911439410269353230208345410503242199606186650417333579047848825834242257112060317620885151293421378661990197161958015730358249113963865616811805417654957899792836277351433146683316643158745577273742588847277405020330699298979666450169324546781433015633218213248018986767013905101885085728066131985273947793365444250280947765884488609302913437528001802423347517836456663978922564542901160075954132077499502061844004777463229898312792357201472450520034421742281215395838957029567457078867297742321364249618062920323524100796395855490398720473188748064226082130624085325443879193454095100721902723688608983702297802922465778395428510531587340343771240068168890882622394112252370643121994567113348850616779414952571984309063927162547038575769391208822294299053225776973195785292510157058775147687493667385905281728614066936870793483631104130486096422866739022254251631022238998824784309871214211336594149372534724828516536519652291847191320934127662041939033266344757810255450761243406685982638804631309022215852991706323223872506356963395668107287976200691035733250165615782065576159415303394415966535152327550107294310945533761757937224536792146711105700674959937207778503501562879445241463662142281185819506210181780721218897488871995890898495582077564387715740371190275817001449471008660140255770382875594805433223352833476546594040372715841292252983175468170554585838014797017976570586587751089146553833551413146641975370517778330202052282190648141351908509904289169596729111939424597802445523234111653813513351586367960175769546506050051493655326103823629699245586418016468660736051425039803522537493270385743437525903109563398688573456345292160567787373069854610200635728800730405759403691875432721043746233636765094325962472698626875833148826372580999341547042531665331710768365982359935219565301595187067772247975847412037958098451506998773182171027695752045356894447709388159633645629545493246019135820915900506906032640701290570506299065346661219735445730896769091171352761432210047450382980030625592142825700677633624952217795344145832513082782540989616413040988227257601039794195623143595351637462190706636535912449334420058581521218743569834717812580171279915160794789675762903718339466089866492140118823551337811927493524761760551434001520245324751568861558716803095718510972066599595072196209156923318071322517301806566620458899402166430591631348363311478802800521980525250372511467674969151489645720009661369785217086930227581405674315978920044798755483144811069077253851302610194739624245401270682864202663540116818822475326676741780611737275972111438408802370422377608919256570335384654037352344114105999356653180812503717835632673409647782213628400383443178293619326757139369589058612122088577237252104060778375287897543799460272211546791798613974575310224299012205778134871255296492395729078221387894808011355820153110205338707003138385845672884757408327786763143168159295742358655797897448897721796416755370

/-- Packed state midway through the first mixing loop, key `[289]`. -/
def mtA289m : Nat :=
  62685089405509111925910797243914719854890513935494713084094713797279779630627496305943786046941309007281293105221577504421353501605599255248785149356818580886163074212016138319710181437623915839386196989339984175865611290932895638485827512283879634622589907034847096838980553398268338905605705315464924834076955485269257682765843392777664062904318116756644819538761883164862381873685805923051342196114892111881287659915424456096361326051748180740843339721465950121631833352165428366344241754810081140762710579390137795215443629123183303201044796731629341661542390258966032612552126580439913324626563213547393121217728067632048719897064596438939163041106934301355643192260261867872030533878188557727018817797219012064641958276099544136480610826250078810896212505254064619595899307426216931651016613164877613570296351724055264357110051005104450572173606849938075379012356137114572525910752676385589168436483206759652170097284388598518122222819376116616668668677988651997615236221431416155794821321118852088948452164682783715959922435191327367306488124638818446090532334864386359317233873012285172875896330714873881780586230596002778688422250420590175698633544778262136505069053046737202152515000629854634631225453245996997340762744567896897683212149150732909707719966588817675821630380251456266588599804209831660991462715440400663143017564651072677052296295930367391822676512661642282350234567553218318066651318510488484545671729568971887621684270732981974442582657502555066960418690332945218280990034155505553171409775830458482159957769211244505225186771766058316021949327301666418107251589707938065072144733816368743637495699897181007119363672460040974223449086641663004605507793014252452324150238463715514559124307431648478948480649031081489229583165223570218974125422263886587593014744330199975749832650568652404661542746543584685860761547297457070273167102314576665676644281998277713093924236551494770138725647883566971887853912300960949802636372591951717316415323846182747445131420005722224687602711525724505110953736568981699982016588947035894059736087136235396798804019434387781559696138411966704777989194870090051835909943079457649936020314680876367897457337488804889342331824364904005266943816631681518612047693872607083945336048154993001716858914072302230374294986610531277637599664647525761147514008899238689946802093944865612982597431648203028809043429562401771290925843222821220221381984318518256971016750121270624021542153515130386081256853244444367484914891752438843250797295149886721543902585582757118492217204960123203770309672216674331373413106027454841661967870247822106376003696537006476355273043676224973894002060133928765135363584693312631060562155459381152426642778209514491263275588735458188352331628933634618912177576995916817414488324819680108333628484452298807271017999262374749573133359090629722111402666396222385680310709557844049479865847370371052888681758484468279513921172987571336140289500145715018352119752770038578015899178947425013401300127437407370742417936981520522040591287272687927763010143234543976758036787473675770435446271892263015695111610664790626213983650226983418727042381474771027477026160537414789231155498774344605342814750959700152430360648463025245297005026322535893353639553489516259380518934379028396651648709364866752881570760888024406446998561051744800520304892465374281177738673025644764559773062600134057848012895522577211209687953010740044468907968246785131917192144302529657751278098182070440589113963025462023107227813473310695030476987696443298345829879996043937415211899513337984607991163682499987765862470744286090938799225551416812922957771851926984700392927708847433498855978039298733954724164701087469168749443514056099206120416966243525252080333435407829266977075574523252720535190526150082335559779302645037413849736640686601661467103490337136704678832924984135208000720736641754036516082237962490671375861278503013418035438971428709572794153581184420900083203819556060106258235610774790186766088584984758257984481045163489763097456225509207676174595581394425108661030505705436437129564913887460971354482644195463930100630373034258149528306811376193351162920302768512584250844001615673061036411929366015420505237704892503619571841398201098045175291872518352787196706989950785176705206898958560210734378816559663229542931329860581592482612427143368541890845137201562953097605800202666351042978191364312802760481424655616393292106578373769985404366918687383023815833835837391123126585658393198225863481361944120861590837645901916369752542004742174091202840327466272342856563609832461614112987743063567340789826993979241880572320962426189745087692879725060711196614389025645194773717642021465071782892144686841776769106335944727695700826220750562940940281206927002072207610127763767513762770140326216051970599782594960089795045431066529471731673788782448163118048502374163675114124770426926535646372456276060937797815810156946922345996511857013985945128474466103663016598498703996768856542900185659569912694676628918018506002530809600323558099401433832762747347579487730754401993550605741309980842295545009753975377517907042060426151957318930705382602072956388650897040597133845633808078447288686338980533012839545901188819449476479999784290395391271696077942280822473860480125411002075259651490568847202204582264497384530985623579003491515662351296682604378922119815647361911900640179362957313165211164268653661614217524619762264207435197675080896247827156903151695692845902522449415327872616937924276482076235656332775661625075876456990299498450702937388216719620399614371997149038356685571769705664760062430439941956655074995433021212004089210670691434496037711568744246280747208656909168776249200519085940930278676291732565335621040282122319927148142925167235391392880966581332672738956867058679731911233836269091913857035859359164860888181345577726418594796112607249900150945725527757780023553796469219635646984789653913403441971370679966565484598127870216536418837082949467090727310455800826434921294069339202838914985379854695841246467754

/-- Packed state after the first mixing loop, key `[289]`. -/
def mtA289 : Nat :=
  72448494283745676338784463186679677975818780656203237546830804682010979997255640439465537276561609745443052785785079318627664190468102604678253656753561160184657045276184961937240174717693022742240646976195735753240035587395158182464987511770099133781985143579815337997497636678470830170771136778363232955923776104540097250967669433375460730858741149779627123645093148761777877709404314618425653484864029548037307791774239489036149156135681263131834601715112249059807188683353723259355503882568068268767099309018728538727027460816852093956404229868520533712874530794769784706852050271907657236991422870285033963767127888219137091917133730412411663732834740518182253193644767056897270837285247229251844411705704823736442331824765332576342355200938190607836888558825535572924777376413541593053570995955902403683761445175180350406020724276604185136100724533117292297940465516033946212850135165761737460333040527017059557706792071141354504320873360718082767810327883465603965806824354320577528934674268567766292067864465310045044170982577172230072841268478904442065457181134859538416456924831003639801544086480056895273431605852649016046488143839481027437509606513189972523379314684467380113821877351512256686059866588045224202496207315993569267000591874704299716092162496313731534080623346685024249861856064885486296350468164115561767298679374274458367679360846932144802105526722991675921229676068865455386160224261859683235039214550684617031732452629480963940841255836670394857190318247530777522828760411730882417881538836615515090818230186441913140094320629307369135512096096940547868921002887728378535163942898621971754220875949740708423324468013071522882228666420203897325332453267713543407087190067189289358594859890426558336653355782399691594892953975270951192267430850363736657220043606478015001777485348294353993792611784620445888545938542026267930182781925166096324584177354351546685781470522952617199631333405390300923308016743518452860189656907123992077479682411065994557083227207765284328276853850303378995164723090500565738928857105083230018171002239781028329171491126587445779039841974794444483943203618366494166797903236468497833438751806926590939137932052546147143534744731774646587219751310474586191764729156698673259777528080176221598390673479824736056047289296929959934892701898745623597093226379653959147113949166654839474061498297677771387233987658304464971594363492635892892555458933784319356852368343245478732027084046594611042931536020972913878468584105683832338445267768416892344929189339814718297345156260751556830630990322186413084386937534455392918812377112528071077672092628100188366640057575923087786478696666790264605476035375065630932096489276386229172495886295769524044649650061802130650976193665588085334633400509425512231741115209192145995298679972754837012055953493138551296884047537692288567403026200788292190589773291227742876862079297575807811321175878294432572898044921541781050028411292293924207876733230067570448667846834838435509665208601279656488264472173911675091886677299815769171209515894122391069584437153005928904940054024866357782374677602022770447352242975087693650710155752262802059500049247972194169445730145124747920382730207682967655417990591769606034763561106006880560923435014019153630250879297124925461776464316585302463520520523520148522943714934853119192731367083190331319844851152412658463547159435374386956969147505691195063790230034662188845644581119116178415133344489950135307161414154857370702133424926598625474615282667211257251256585955776206033671752658989913511926399471384363302197916399802415168633340074503762665864414405551424057703499497750258535478323106486989418909416292933038801702762189385126912355700479486626308814409193681718525121770977064203958803463315551824481088990163893876584775230994515220046104985825161354672315272635390485669841153569575823505243165713717034115804318552695747294790120400280781780538392837556542276645088229163577110368678349809047742319525312836634721795062829632238619489523353911085426626821489698823897559465138803884754915931083314733428942455633643191560671180399707203933614672782541540797500189100838033485596308699735143770730745779030821479374232659409922120119834337396556580932655422307507350932935256242425207228143551094600991873984603818467867209012004660296869930764244804506198848765966049853053259489770836700655435595701196058859226937236640183369841437453982971569663963917351584856090595528759880213299653900760027535990752554622553502274560985526432948832469031534574044265376122995204619273288519635101382144363118335160577445627871022949197960278029367908321133380845879990718493932311878461289066925500430190945697485842850607888996144209462946525470083451409537701052471572240544570003101519916803617419042152034636627668663733196386875569375944926158308056187416074240968203936960609571684296910974129241323119786138273846940679609408208919717128173543792604454943876289171008831844369498754029007253142931150922307865515533524543248596486692077054381746719929174925371715036336273107879428485370272500728348588553652487504753480637458620121024517391951873241144879838918806024960040747318723968071520809163137732329488792771641651373852148090934860667168285707744053817764175883592453081334331733522440672318528353746578943843136449134885587232030672649149761516051058872602702649794839165993891421901678814526685257579736472528060859323962221830228501820910732318421312114217552369473896858410729644158160455692749042880481107333288095544339293102197506092405444188551237300437764852706058977964078472821436326567548502779534730206285167277169146187896098852848107671511322344724027434520949003742662692097237955370915039124210025532951528308320697809892473326687178129422923110218805346276551109153132539176005708026896231713884611907165097001769889985233580144098593791129385984751825982930907571679243833569943302551616865536628256120864869077516521402183957809194359793212234232100471209191598488496237866633874684224064790643459684826831913310566579703713487777385527266

/-- Packed state midway through the second mixing loop, key `[289]`. -/
def mtB289m : Nat :=
  72448494283745676338784463186679677975818780656203237546830804682010979997255640439465537276561609745443052785785079318627664190468102604678253656753561160184657045276184961937240174717693022742240646976195735753240035587395158182464987511770099133781985143579815337997497636678470830170771136778363232955923776104540097250967669433375460730858741149779627123645093148761777877709404314618425653484864029548037307791774239489036149156135681263131834601715112249059807188683353723259355503882568068268767099309018728538727027460816852093956404229868520533712874530794769784706852050271907657236991422870285033963767127888219137091917133730412411663732834740518182253193644767056897270837285247229251844411705704823736442331824765332576342355200938190607836888558825535572924777376413541593053570995955902403683761445175180350406020724276604185136100724533117292297940465516033946212850135165761737460333040527017059557706792071141354504320873360718082767810327883465603965806824354320577528934674268567766292067864465310045044170982577172230072841268478904442065457181134859538416456924831003639801544086480056895273431605852649016046488143839481027437509606513189972523379314684467380113821877351512256686059866588045224202496207315993569267000591874704299716092162496313731534080623346685024249861856064885486296350468164115561767298679374274458367679360846932144802105526722991675921229676068865455386160224261859683235039214550684617031732452629480963940841255836670394857190318247530777522828760411730882417881538836615515090818230186441913140094320629307369135512096096940547868921002887728378535163942898621971754220875949740708423324468013071522882228666420203897325332453267713543407087190067189289358594859890426558336653355782399691594892953975270951192267430850363736657220043606478015001777485348294353993792611784620445888545938542026267930182781925166096324584177354351546685781470522952617199631333405390300923308016743518452860189656907123992077479682411065994557083227207765284328276853850303378995164723090500565738928857105083230018171002239781028329171491126587445779039841974794444483943203618366494166797903236468497833438751806926590939137932052546147143534744731774646587219751310474586191764729156698673259777528080176221598390673479824736056047289296929959934892701898745623597093226379653959147113949166654839474061498297677771387233987658304464971594363492635892892555458933784319356852368343245478732027084046594611042931536020972913878468584105683832338445267768416892344929189339814718297345156260751556830630990322186413084386937534455392918812377112528071077672092628100188366640057575923087786478696666790264605476035375065630932096489276386229172495886295769524044649650061802130650976193665588085334633400509425512231741115209192145995298679972754837012055953493138551296884047537692288567403026200788292190589773291227742876862079297575807811321175878294432572898044921541781050028411292293924207876733230067570448667846834838435509665208601279656491299199842396035898689558573802300695448305834833043329440191748690794968808905106825091820670009021574004207873483504680374559678348385280711882077834686284407581114661669095165259308874838129981693985843549423948056398172838922337780335788008375461419431722579037867545852181922297600734503737659600404166911445920918522334127727414282249186638973561580945570017845009195777623132601615428701435544493850158226045432335597792086245269133723484728959363021744948122533571912432129243203159205532380723943516575386501314135722101686391800088714618365720806791104466572177778482087745258394023556655423008741065253458036916546805485654442158855634686160625911298047102543089857110794101514727955798081597031147938022208863596448458581111421390940327946307308855204135504987453209809282021945653030134842701779577388222560141076359255519729189358079039205629824219995077242061223619664708049215034632937410556410387003210824215550857194226274117184944247951099727727159688794823232216938865949778014530865811783141034566233527595841846001363875408725169328904158333835499010053595865203545570339552520750532919173997609460290752589918736200374518836335834514320545800156507155566393807879368203674241945443836142144790624103782563550947326270749870472113875529596010976246841637251166295517882765891510339353096932466675202784540705535068475600634651929033632857656094664052965915797667228470500189132286154402730565880855754858478283571588700903425038452479461906099334831579557074380574321284888604787416555365770217017906195694996395471288361496456779981479933047318725043422601411611591619511490270832781822987597400350180823213061472974810716339445243836150629206438207912913911808745926822620079507092180307863784986548281284503001870373860120547840810063839349486025726704344357950352590113428482080456203300648364401812573205156860080552711929808319768169424972047356327767631115087666605943729702826665610044458320930537522752492796866123293981693554916670740264650520136798909623919019503617143316692233772514450801252019885959973553623661483599174132120502283776632679427877971699766319799124161791792742623062039193641486319245027408008651294570485388509444002272949470607364327593756440146271890336806469355813149920243295988475552428541323063741625726705648953428833001853576642302685893720220960466402203908387317967665914523200858959671582037809591411289354547432260828699314759017817071086926626520224646971067960666002746137032768984919143439435992963738080705087928008409439810957176482104644637633915109805733056082040801523057536203052139041292947166350650740993767454833817397181699893822747973887935632744639977641128801815833812225647394065140931198614864083973918528773534164914323150033702204079574089780317331898886149909041300154253402225528598196301473651367991010729645594413318655191471199951211200468542116121745391637329203458437738536343277995618921054601497960290299062040876459559040126267561918471417146647421557029778350084821148734657690586438390174154441747818860254197095458522181777378

/-- Packed state of `random.Random(289)` right after seeding. -/
def mtS289 : Nat :=
  56442595941288870529595831687160320525781714035996164105232125814663252517656497105839030153282137550741438109140494142796251641876184387929468582677967627543826942418416448394351811820470837953081622811872403977507659790243858074680633303491345790302771968482487423865373205160598473549306282375822511264110681863629821098508911502628968548903225410612384392009191152670157185233777438322645466588632940032457339315362129319546646516948851333675622040361521655431852894568314370702109995395507520287172821030155636387583038839174677069813336976786737575867411227869278715067351716888116434963561700199048341472676959878258347275278425161615314966522091637526434641132093281199108839633977284264478804399419086000044270715023362802900721458448971029397563291185549070306048164001926674080402104546519382280660038332266663663277807982022119794837983621809172441811038283009260395344892451270324859103086722705397480176571510457688452142279561047604463368351492102562449451508304096361561040059020559192246866112069665985295322857903356573615621163100051016007414487303790741093886493505824598759602434518182126678891814869934653932700971896276419948700220323576360161409085093752945314929913657611730161872562909886264766321612786859348419180304207118503604603445128501234061648760953534132710730609120466991345088926478798748746869366864078144819918114501796442123805836424164157524571777592411947238480746085483649623683948435355091137844345001759889562872012401129442159526222894982744751662631046588455920761110409613180579602896406923405406843827208867383708588145108294207862894610527356179065751520381419116993396778340071821605481602620595659751162002651575538221235095135687098420551964056776469932076086930843643382850947952026288751204472251195175455815222979551503258442214781212464896115084640761766455769813266698362171041564854455927881542253714621490714006863486169827394787728410307457363944287603036059070381322950941634332076525452616717595042515545224943550611185266191931605770071688302970317992572355830423495025911544452993595635164311311856818375730130673099801433480482281898004148249246876213892472688626743676932336243454666947845304757250799067856158323437134986972361325862778180721617385112536035201231974723062237577190610350405950310506134850524018588900735246288687871735771531778867362396134245496573418740606566713967805824472811260936519464429877694304015986311054890511298916268871735159251750899508891149693511857827717829542710261874478227051630634609476251604533150905973954624188957501122145719570389251044788207247574423488621063228251581546218084580395960761601864180802697873312280249774823169950131045707354656107936103008645026514762357824349984684352880706510935601908871640813636202112568719876262308937410823928967326242706222948503438508030815330959783300136246886771753243769955776398726447641794603189203441516767334687428315551756148116489845182308816326249942161415063234788991489546515208716783838917040218870343348857208385672901140191720123683320263765019967470790488007070937296553555238834593220401740084071356322307791674024195694985963236298385594454942633820376489485234683964690974653722028719414952299753055196810328729953107943146981116760072742915390949245974460101010844244499892927157501436541964196749714352510740375816270376842728293335629839602838249403221540588145568256201639243178057475238744992740940772731956108561014115327066003717902342563803309633492462854411372637502673097707979666529793931957646040764495786921339619293689457891247917971285412360786978059488508382731374610072349790222885986773703232894403366835278369020066110807637551575313674267570009794559471440741110452850346177108634048203540710069533216071886503758792971484016442038587801697053950890394837071417339083166344917130001835811275558058532607875035771079336738026137157232590688410476686446215798463431958780720256689950078287537789336264904632515450238436191802289032100799549139404852124456932166326483792644430554863931299696994033555905310481542678565551581688389158459029983118982743885533143327151400052116868709891227560925534903043223643244623689874714486718719054294017422681717409253314325787517997780470273565210097423433881211350879803367142330825008253961376177756105196461059750428771007678773512321438847684298180117972760072860872632785925632484333487976893275376583094623136873577438097973192554433700443382803905761913900943712047294047463601842575011702469889485389371807357547216641155882491217068775689226819156896922504195870031204261121172037819066936916998657405720359950189649096470828156328588457363522881514785749037514158821404949905219520434932934478875793434429665464224542081030824861928235694907960614784325590777219805622719577831262472513236733499329870241502344344460768860356524727638002917211014963189917428888951447872939388996194301639983346019856108808006843286196675040793403266307913456665956993201770838672324059318946882004695272977681500087018566527416931896200469826660777127258878366944205652869742220985258619307028919064252989316049153752709682136246556260533273043331653940903535691746710054382386661794001985686867072040764384992113732322488306056775397415908152362251685395787991155286484227763550147129208021743271673860392054316130695600391048553416423206493448141661373780972847107586039309555224370408756397551279737241996244540789633101113148925773444254927065961879950275979261884858680857415737168544440797140766227956627981726907156539732593781553925252617181264696942054145335540892976729515965027156581368917948411438709912316566897622151338389642989811826322317207439871953613347507431222045486136722980828322431033356519945378891313311695246375537459306908812634094867407261370656407716833654028606188904075785849767904628530915954062270884885897645835104022841506133944351160727772196739003816466808613777384928140959947978704064334886786600549626997394962506040010900651545316594956154907520985662369609488701177736567352626762407163970432907389851431243469277186027540799546490085631705743360

/-- Packed state midway through the first twist for seed 289. -/
def mtT289m : Nat :=
  56442595941288870529595831687160320525781714035996164105232125814663252517656497105839030153282137550741438109140494142796251641876184387929468582677967627543826942418416448394351811820470837953081622811872403977507659790243858074680633303491345790302771968482487423865373205160598473549306282375822511264110681863629821098508911502628968548903225410612384392009191152670157185233777438322645466588632940032457339315362129319546646516948851333675622040361521655431852894568314370702109995395507520287172821030155636387583038839174677069813336976786737575867411227869278715067351716888116434963561700199048341472676959878258347275278425161615314966522091637526434641132093281199108839633977284264478804399419086000044270715023362802900721458448971029397563291185549070306048164001926674080402104546519382280660038332266663663277807982022119794837983621809172441811038283009260395344892451270324859103086722705397480176571510457688452142279561047604463368351492102562449451508304096361561040059020559192246866112069665985295322857903356573615621163100051016007414487303790741093886493505824598759602434518182126678891814869934653932700971896276419948700220323576360161409085093752945314929913657611730161872562909886264766321612786859348419180304207118503604603445128501234061648760953534132710730609120466991345088926478798748746869366864078144819918114501796442123805836424164157524571777592411947238480746085483649623683948435355091137844345001759889562872012401129442159526222894982744751662631046588455920761110409613180579602896406923405406843827208867383708588145108294207862894610527356179065751520381419116993396778340071821605481602620595659751162002651575538221235095135687098420551964056776469932076086930843643382850947952026288751204472251195175455815222979551503258442214781212464896115084640761766455769813266698362171041564854455927881542253714621490714006863486169827394787728410307457363944287603036059070381322950941634332076525452616717595042515545224943550611185266191931605770071688302970317992572355830423495025911544452993595635164311311856818375730130673099801433480482281898004148249246876213892472688626743676932336243454666947845304757250799067856158323437134986972361325862778180721617385112536035201231974723062237577190610350405950310506134850524018588900735246288687871735771531778867362396134245496573418740606566713967805824472811260936519464429877694304015986311054890511298916268871735159251750899508891149693511857827717829542710261874478227051630634609476251604533150905973954624188957501122145719570389251044788207247574423488621063228251581546218084580395960761601864180802697873312280249774823169950131045707354656107936103008645026514762357824349984684352880706510935601908871640813636202112568719876262308937410823928967326242706222948503438508030815330959783300136246886771753243769955776398726447641794603189203441516767334687428315551756148116489845182308816326249942161415063234788991489546515208716783838917040218870343348857208385672901140191720123683320263859710720562250100522869671872929958542341563549978475318658076893363149240498722145599396677799677827140623790114297495902324585475027698345955515064872984071915988677460858129241924845472739698904899553607682076256426880425888281852365909909000120691039666001257918229702947960328334550520124987949356862550281268996162017606688216043837607117451031284938169503637800976452929171231834265028603823868144432890438963348676267253452035657900812135418988742556106894496469577284309998985838127435120740815411528418579576084353629262366900636642527099029285602875838405743468740464944310872800596863846713478440339976481042772841661919688452444131311771929155870902156040450162365031714343250043478532577776684516636391610586254613531399190209611761570801124454699862111172741075567892986470215982617780606252267573341577001832358913171567786024104496363210837288147893824984579011454002298179302920614466978892359566293820235863331240909686707347172875952446541007310147812223321686509746207130809246925709118050720281438438375558969723967042630852888666581426019616121356109648742979832651515821271190568996773169877721175423243370364493735818833087428910855468515421119975141548354849703980301732570650905916111925206793475253149370415247940233155470238090047968180063313974410149590259114774279064694392317723491396345752296066732643085767741075140504014676642920694558288782860733541370149815431906888944994837037118792480858879369909378690946240330736897106005301094349949367566039619298905601193712059170781522779187640997401687253766155978117143790768288072790228557398585938783146088683911649559422709363737715221335118449264798340069919837923557219917640773129076668598132789643791492366221612694370200834062259443916653073360917278196767375747511424772285904823424318040554134930428639501031543131361003115806578970828402946999222674888063540531712523498938882040594908771178153218011429395333913947440395070442669919769598882814543034661798032657953923821988331912299040826494456382601639612770401750915137303966655370847344295817015709194826518333329507519923794396599753627717600519340105056659957824058814855877090519227597807641170747871332515195900066714504747193162974746819233487706946173503155826684567542209837873020643186059374708361201755981875885421040352333573328451952784160967406889515825498190127219318777498786515823439698719487383133802671842937967708678214346430101427986421498931733610277442731351457680434900265718215226497718766374199673522247079916930128762288041864816959115349651704071112009437956727710096534159703692220492914781155473596481601816689802734096113307915967502429294344870697364310395891859539492974855996634265403149765693858946967369410649818751005884319003342250406070773277721206441114464333435811079937646578038756724772733210800451546119610521439033245451440299202275724291791860784018455242883455984127127034304900420453239984780926547250598299030715340429923371182022215523521556724413109695915557905980611728039098050672704463485662054486507523616

/-- Packed state of the first generated block for seed 289. -/
def mtT289 : Nat :=
  33974364681901593672910783053509303778488703799186764936361082870167581666499865864396192734257786193884043219945624496152999626908697295192854436010598400839458916155114843642696960409826510397821390169595187912318333853645156817575307114641558418185276402624362551675464913134098907874057738366781659150726129773241724668647423747172635564618772397697757680853609167597470319413409323183619260399989627864974277549113010568739499819339012363442229945736053135312671998961000582587617110626747089674830200516187622245877612431181728727978856822814209151072393605761029068426768109283615786851815644050099849642724207414454145160194440863416693783806451838214703843427139535954745113577844361053667651066137098057830383393028814030554673509421998532937596073684082858683612211332945250431125057449260754075446633404954834054974789014348341049556937584158548049854293673031163760477265922124240413467485454279408766773525341615068275160674366140092001600587269545327603888709676849872519105678407864338313096997764743821410385088079565479893310245870541435488061059306069400286274415542148686639904687316273984173583190373244973302784897508046922270655889107152611016932921309910027184145225370953147160320899125394693407734470412615917628976953960104869161097052453235899315748973317479075012546786842821623599693865330920086030931772624064334124330994368413153004571004813770872819326754934515538291753823935481522315421621789122853635765650636502843954368648293026411688413287960808675427419861974915429858616193893340322468006307806948530898020366377571110524443182718390127862615122559495812650961385513677258825897570970277357487443174773288712291757403630938796241184746748401123822384409328885451169462042241250607094519641153583395255250469991742296583761455428550243679969564628595969398767716200479835388054337623107555953457764435639667852134007409650363796581596789166036006589005546400431904384271274917313826620535074340072199599608459050659282433451771301427877898533061928391056556372701906106208678063772030776578998474035968927805394810292651786490387738064748516501520279036885320524728539670032406928580200428227534676658489971022282107652219488963059374239672777532440949890612094119574144758652009060729496627849248840421367645889284091070016356534270476519010080254799551304324724253568436251431757847720185199465622448266194435611310719129670257742004730495399465832114893814492317044439119878404695242414586530145253337726653091534190255873109742990651406674473525894382582453785097517328030056188919909866130134426087544051674430922101313207402608827793434118258070193294424256516077934380697024583317854005562299126203316959816586275253971637970961164946114517387830600548639312462938149516178081188608353402433847601989708886532834544077853885255430684020224884989452855627989505654323055352411140116158807173252754496210068499208567387919036434313580160576852833151220585119206965908704999100066379818554595005386518726639802012795516308495975525413370102656785271078485654899149540929882343462805043619571908579271460437010876059751247408145065809631354251522909274870457114273021434242338485186342906478998503196626970057626180171793979819528705342225227483548027240848151468915193218504214970223785774009400894887266790223485049214401089530788780704209223596782673772241224211106011918490772593283172716503085967248822342829666596721027041417511911967763922465491942636406415303412146835698369597988061441396195443602394212266862404089817854922242110856005757499085070702070827654042648253693381489221929659656794767406893165717655855028515668290949241124074269572994737985868255892334909277070721655408966768536224785552577658579381495331000783438628546329460100915092678904123944696368000143578455988700676791445242769648866673713353445028381512876937791764634059771750692093950502866435855959070838604414367591128875905064902380522383613588984772390739093208961295833922557050156824123958484952574005439547661293636954918678720490721595577409356849373814254257354938663528083553526740001973787879266775145167617050261379360333840394796521650256752340181821437778955241456368166217634169387088093679417493856035881949218216554360280062720167142043210079217499610932772806551208119597124862172341266706205769636320212031159159574199098711447939033779414745599532098538633823612456506430999587603882152260323586881630441959134079321517813963741087086156085470445422824528545540072285370716357639393750200004756280332230736209971009845531692070705265110876092633417458578333748272198218054228592714394500300645403551438293214658810681341346491617910671526959734546602226557239213661947116766982741320067354590758999035412364256124522369734287865216992547565030051852908571274723819296838922221461895453416331690369692389104061665365357473712824932245335276825230710407374606957218239682436218897825775000176794002124870738912714668654447007692553352522105915834720598644742549641521354937164885500408221462926902652561689268127976112151962322240841651854046806793677295748266600954278989967046325172908510897618689989375673417783170438831251754130216285517600381120766893829813377908288062099627454438866732413726974064990101418280285464386145230460912939937521172649245451130763805631707439861939265537101264855548359470274746151609055967819387044917595246682610091008523018794744641349373393940438151128980679454814200912659352752601093369361281282187673061031497334259019924156376812494314495486651632042631979026882573143875934266682607112380995229873905547120206189426019652867649350879554047359919566899546569453514556679869329476982415427087237615638959287038663572308587359508253839963895911218852930835975778756824405125600366023233850507361246778891680658152970556784360249141801772964055356612693611567989711886065918339267319793950888076951298760265387842724521271283056753282107653221393616836301358907377015163016261849425124276458339070837627484011275885360722395931477407818344017612081486373312847760995156361744950665906436467646022438874539224709293636578184736

/-- Packed state midway through the first mixing loop, key `[105]`. -/
def mtA105m : Nat :=
  62685089405509111925910797243914719854890513935494713084094713797279779630627496305943786046941309007281293105221577504421353501605599255248785149356818580886163074212016138319710181437623915839386196989339984175865611290932895638485827512283879634622589907034847096838980553398268338905605705315464924834076955485269257682765843392777664062904318116756644819538761883164862381873685805923051342196114892111881287659915424456096361326051748180740843339721465950121631833352165428366344241754810081140762710579390137795215443629123183303201044796731629341661542390258966032612552126580439913324626563213547393121217728067632048719897064596438939163041106934301355643192260261867872030533878188557727018817797219012064641958276099544136480610826250078810896212505254064619595899307426216931651016613164877613570296351724055264357110051005104450572173606849938075379012356137114572525910752676385589168436483206759652170097284388598518122222819376116616668668677988651997615236221431416155794821321118852088948452164682783715959922435191327367306488124638818446090532334864386359317233873012285172875896330714873881780586230596002778688422250420590175698633544778262136505069053046737202152515000629854634631225453245996997340762744567896897683212149150732909707719966588817675821630380251456266588599804209831660991462715440400663143017564651072677052296295930367391822676512661642282350234567553218318066651318510488484545671729568971887621684270732981974442582657502555066960418690332945218280990034155505553171409775830458482159957769211244505225186771766058316021949327301666418107251589707938065072144733816368743637495699897181007119363672460040974223449086641663004605507793014252452324150238463715514559124307431648478948480649031081489229583165223570218974125422263886587593014744330199975749832650568652404661542746543584685860761547297457070273167102314576665676644281998277713093924236551494770138725647883566971887853912300960949802636372591951717316415323846182747445131420005722224687602711525724505110953736568981699982016588947035894059736087136235396798804019434387781559696138411966704777989194870090051835909943079457649936020314680876367897457337488804889342331824364904005266943816631681518612047693872607083945336048154993001716858914072302230374294986610531277637599664647525761147514008899238689946802093944865612982597431648203028809043429562401771290925843222821220221381984318518256971016750121270624021542153515130386081256853244444367484914891752438843250797295149886721543902585582757118492217204960123203770309672216674331373413106027454841661967870247822106376003696537006476355273043676224973894002060133928765135363584693312631060562155459381152426642778209514491263275588735458188352331628933634618912177576995916817414488324819680108333628484452298807271017999262374749573133359090629722111402666396222385680310709557844049479865847370371052888681758484468279513921172987571336140289500145715018352119752770038578015899178947425013401300127437407370742417936980722023973954501420813813885026638784541612711392323339419654514506607221074658246597793174182697228184278694980381114863403138636083368439024521349559035825367428597012712200763470352043164203355545883641130019874557743261431084997617789962463147979394025463157964966199790712921609481814019165860862687559594954480323196053001280836777558219399888609387952378730195385010906324854259499457127739957746007710426508612084181919510311671659309686056181493263213361002544106895297543706527008463422553327150841217323903197634775037246188968093774345060392476383113652475030762251698634900107615592823935483966560464230027390692631420713621812210505716132363097907173368601307321232442209282069612003531195876912656395536284631393096727362318300732989087165539250965976661444497695165447459815607547938507573870383661223964323335501966782734390217858017637694440518459376340031404449096388123484869570721253280228598981109614491289100780729977541431745454725199827250441648957601880267271303047885957304556935637522507923178601858776940971312858561310805930262662824225872881794738777418806507484648655345963703273897168083256748506739828467196311165667612050846278961792687728663750251449604146085716477054603708192047363108629607338153367800794564382860669996593164750836152799233142633138609360824011615207855820306000609859659653097463751657578854556912190108679141233263090916997432355687641871722781852752176158617064952220927475326385824931797973527098012411053769872304359742182724711936453927314892761525350533033026775939671190636105278794986041862800144103769646094819088050657747612289870424709755599794710427204469082761418506785902069359954869357685584766114306049767416077379131872481823973219888853590892361288283333548500363159805967867626894870015365228689990318204309678680041660523347539366435728656442213850470194033967965938797014715501987347909258636512676753381501905187183540060791903729557112175065107322030455061298765721070989363902796222701204855152634788772785049943051539939542871358899963865680751982946255403139372842957947345851121877208248929057690449498535919579735162932205774190186395635068443359628063407777171586656016187566832951161578320951110455246727345224148778652258429641575035806570288278850443175049512642489999056329419043281248776814983798216691449940969460958290296853117908795624922613336862649687924375880916438225722234311986839619481679985289122373078699080854740865777489587107446790221622631239967701189962034210650625298150331816325295633305427678040055525989403629684583611531497787395875879155754383959052354890433707407540505615347243062775963043292850867260118456248584371542156093446550963893013169178185080245636836584290226346907051943409111290838815097297577703002293937951527179447662849809246094513289101011030919604898095079196441846682569615741827455309314399660223092568655672649682376423105395080552764698306366735309577575704877425278726977894318716522626045775475460920823087202629520168900741215143447274244779232755861374584578046669821302442

/-- Packed state after the first mixing loop, key `[105]`. -/
def mtA105 : Nat :=
  13518744714223297322012110789324073895652172796953694636131703238763749097209554884151510930008453168981497381147188413372806156247957470401284461376824957308185230393389703663904632097960768701598838794966747828296761408685569943905365049243035636823687872954018968417479399397645990918404530174051439679753469288944718514607830307434200827996768081407086373128116919331372886641553006173607227122084511411812648928507493089031522147483820694898750816682199008181800548664625420009177176141759288499522339660858837686977038196672766777474610797600133851427226436188760679793165285941456440654337619961986310943114129615551599980120829156545036333815746956015336161820580498662395256719966717872640731543735065420200117360804536788221968490021123400219600501013715402342536154384050663895491935110098085645532471376056518223196195091774500657112753916686167546279856087125900571108127742461016709288111089308643225750846227916231476757762571058125483172949797676212194167666014813876750234530530939051679068915289428169801196805174850623726098786147168370461074908885171756043046304409148810675732064686512247606104704253822440481985339999983934378382172738916838469469773414668789191131313260211051247946424597639650747473330499962329752826913835765572881097278282991295426842592355094069135908198089911666779987624883171788284898699869163994804668763601844973467098851561803884890395629209446230607669496107421633181905622426257318657571714041773091840597673276117905950591309754233775932381978200613599728589035052202165567871505963999889739689363113334725664793598459369263484029336831180783486407873726725431074025319663781315255027274084880416633907243489005135409594174584941768770238697489812767049818226459287665271751729280428323580538119051117741235117840422611972851407418953766642013184229220809569829080973546779365508919276071793870734216055975108636000524727943516165430827237797998061423276416070799926614359505592199807257527310837145471574207647559226850515719491247202555346232313652833242157040273869902749896478714948535073133021659038001855939179479810523212004410590251144037964829720522905245816304483616931322328413862265825415547201274968072839637370465620876335598821458706886857378699206215110383046007694353910725992594511486570934120231313815573337282388019336285535258760512762302386510125947930196407394681564426621217139520500540692630124916659452010405979741644666280516082695544819983452883169280084459114969077263675930381959934398162417315976731067639959124023140072148515331754179376171221007564668062728667750526542144393659284434276675502602196949289699812068968723416139791634950891198280595839907586412415221448854442331417874785272009399623180754576592836100810139589964626112852136629548750502707370638765427106720922621556799382496203092535242243235564377974350698499268772759943632079158124680495023207588718361348340541545922993827868859559988127617472536636986809521229979438746715502765242798280140169010585207271284376456846666104930217283429188591236691412537668954543585444751193541127429834611090695647673663798729061381041820754646353263278967664018429132332958439602566540675778549370097353022551672847464148780403098743126044690276965954348166200321841098007179588474410661345226966847470023086396563904491975808651242167915420308296099083341218282865919398251417060913167170861793441902899713777005654020104872136964333717452803672876094352099295932576512038839089698038429257707231546160308880762449518042239786831519554105364113334024439721751523082870826557011163465863999643452399968297163646446797529386086282484603114772499794494789851320388653456589444496152533035864106930964015743759011316647334104975932624034120133010803837684802148226058634782395583487331852642252607028575724466183308800916909003924132116197550491008245008014975457789203264599252747762784679199373500840101670112547558075972218014944632074470511102712669896169226398854292344040664395434375321559816417372419842179387599920335445093820723434570859760889030857202397041401971528867026076824202912862231201623722104289793763582324175666080063969964598435989180224167379643437641455785811729619983695883971984764278196672406614196556822833179069429616896973923554205908252723515830527446763849900613378151300595668472638742040940448621710463999350495495384649576056442639474397631952290547344713087549717439404746186936336848656603424050767008489514386600347514040557888816326768725247144837065293393541526730295437100221026093152819467640782168335150704596736955660996903720860874024534126718483246689775617934639238306352683151237151818342327407676150581375827001639227752653573998885021931176344315314503025213056985881065618561304706939210138758113861622613793847579207445784510357765871961420970603012577464035203661736499572425374302495253916696113384866199137451936844366089383010131254959586405408987958035243360831449116962561501602968660211333714545870174525650348367978314874638310391960439229731310310953298627405466458957373866689764995179612770347653175411303439123064081912592706882963227463929607399387743193476783132783962410581241846365040068319028489652656640620762039623339376182625031241187821651005874695139341371536470281488134538713016119736657438525347114718756100623894015184965651672752809737315902883418236097289373369363205123002732909570386125122222723935797337023322918684946309031952151292992429017499515566926577684156049037276729979656881594482588269563043275959831555239397584215314819487568556020041645804767610814193408519661034396654037952554308560702237821708442626678098315875802536954484682383218069438587967884710041955270584645790993536744580513106580282251498571450016740690646677239241645470158691524149872676144825847190122422842907821374631953784371758834049596932312076745501495303489374226856652899121939282330650646819414413766929591179583250033332757582460306114725349772229295334677118974040455546320901364474042857906367464046266215439325474694229184683503097744764109007867055858833099677225102030314670461331630361943066

/-- Packed state midway through the second mixing loop, key `[105]`. -/
def mtB105m : Nat :=
  13518744714223297322012110789324073895652172796953694636131703238763749097209554884151510930008453168981497381147188413372806156247957470401284461376824957308185230393389703663904632097960768701598838794966747828296761408685569943905365049243035636823687872954018968417479399397645990918404530174051439679753469288944718514607830307434200827996768081407086373128116919331372886641553006173607227122084511411812648928507493089031522147483820694898750816682199008181800548664625420009177176141759288499522339660858837686977038196672766777474610797600133851427226436188760679793165285941456440654337619961986310943114129615551599980120829156545036333815746956015336161820580498662395256719966717872640731543735065420200117360804536788221968490021123400219600501013715402342536154384050663895491935110098085645532471376056518223196195091774500657112753916686167546279856087125900571108127742461016709288111089308643225750846227916231476757762571058125483172949797676212194167666014813876750234530530939051679068915289428169801196805174850623726098786147168370461074908885171756043046304409148810675732064686512247606104704253822440481985339999983934378382172738916838469469773414668789191131313260211051247946424597639650747473330499962329752826913835765572881097278282991295426842592355094069135908198089911666779987624883171788284898699869163994804668763601844973467098851561803884890395629209446230607669496107421633181905622426257318657571714041773091840597673276117905950591309754233775932381978200613599728589035052202165567871505963999889739689363113334725664793598459369263484029336831180783486407873726725431074025319663781315255027274084880416633907243489005135409594174584941768770238697489812767049818226459287665271751729280428323580538119051117741235117840422611972851407418953766642013184229220809569829080973546779365508919276071793870734216055975108636000524727943516165430827237797998061423276416070799926614359505592199807257527310837145471574207647559226850515719491247202555346232313652833242157040273869902749896478714948535073133021659038001855939179479810523212004410590251144037964829720522905245816304483616931322328413862265825415547201274968072839637370465620876335598821458706886857378699206215110383046007694353910725992594511486570934120231313815573337282388019336285535258760512762302386510125947930196407394681564426621217139520500540692630124916659452010405979741644666280516082695544819983452883169280084459114969077263675930381959934398162417315976731067639959124023140072148515331754179376171221007564668062728667750526542144393659284434276675502602196949289699812068968723416139791634950891198280595839907586412415221448854442331417874785272009399623180754576592836100810139589964626112852136629548750502707370638765427106720922621556799382496203092535242243235564377974350698499268772759943632079158124680495023207588718361348340541545922993827868859559988127617472536636986809521229979438746715502765242798280140169010585207271284376456846666104930214962984298886328870572256818405921671986677282326574242929332071499745330084073827374985239548570606578545408398743368218056613488574421222632617266475874451923673802744702741783772941629693448491549774165479377698941837114361510172349762592567630217009367507346578784975621531118710672196042307310235548585740021130563985974457608030020816055530672430629913695047852519210506531550161069306805181207942000268270796569342767384107288401352792867483431303923041389716505444640064839198974285449158314441300470815971891336765801800537431277529086345068453984678898767474554560649735451948280358451823171196850253198156994215556126961737016138111436360765071795058616296441088829029058555958533996659456241376762208881947367744913209950986675586431190021764566194352163040084482922953859039268515124539598924214359040934883186671649585778634486408950907127905736599018435148594952574309954379356337142061223132736002014447936601719476805463094599009521628742285547207768329311441420891978884354023762323351848916817645040646480432701193097050673956703308770437197958246909140993522018794754000284449043171022477044898648755795089982031012868215924500662212020403920512632403771632323287012355913269447874578712737108226297978824087181380535376986566774482828610231915144815479283561810774619587747600144181491071682392433201948066635514814706485370798424740485624076065347904521503063133503324151910375575316231483577556157065211316475795222589117469425569934718862210133290670517361019005436059562494756172638813498767978035705036958044625154731966670030669801471120406177223612307550622406323442680519249869360898549513170178451055078200952962933537189538504451732215692672176320876158182284632701875759497706048058034702364269180306145154797386853852084914506581475243330986070456432298933925375124426673233413682023362536905805151109800737706391512372253934656792394614672555484473487056080877951411159338261749346326492009933310764694689773645266164445016621087621507294310178168275926883978265046974041982825258636119091700281843390362354979475451359849644500976012358273653431670987352476086831521714514440123011001781968763311532882037750435940927893649887263119359065225805599214986447977041210172921035946527712750720790758949045662608389807141757749552443987824903212142224787039868530403752918087416900103635629879470325765646200117743344934014799693361540670456106890466713852735721459886534076728960980367605290057814977617023119264273813034126325801696632273933355514668929854245255578358247829356420053703373900003929742969736665153287659274693015221738805102963038059709768391413905390231437428678086254399817506840542581531128320134138134739084585845579788868795048565240215914417604012883449218767648594067232308791318372173379858656563412568824826519729453638824561930957931637289016771214093907069735353366785178117657837584556732523242202080362524640247561025005954041095884056039362899478680319616357904191884963556908730862720490855362683473464646632735325727241100492734817867024993622028563236911586330

/-- Packed state of `random.Random(105)` right after seeding. -/
def mtS105 : Nat :=
  28013550584487791795616906231181790131325833090359805486548498235316397171309044622763467962905257767448433633534415373933182445465969663381493835212362264732171564684305545272245983420404760238477311025097351836441693213736222539046523777179440457279051376574674839708976246003300171580168926909901667292661459799161811257531568609091872699045983731953520825137649039110535403210176771833680103288490818295464952206486135011723338050148759249203904875139160915254808580619881067651607294128219674317556800168638362819698569542655190135886278619726802675414055498596346900013333287373200267726549709023434630330165173740214889367295188778616766677928290447700657847080454819763874044703856619719467322897135886679053500642588324169691825420632028623570425573899745409455942533399512803251095141142131987002221782071445419106868533530799510381121750172458665804033996068835252616050292374072358046530621550130875098700198434315780606775245448244176199662372477055304450368853696187632601659277671662214043460262150705162773957399242965448408856703669342746511916985114120087231557315495413694354907460442309485339353496209185835677159489746317908324710311884735428655228598583405441700151876286320894077980566830857814729359198226335478600802305627769297838205195470164020011566081398930124435359950223876613774949043549107951958175586624586916859397095761860402263845937878116470500650691120262732963638555979477191484525194458610298189246418744922909903695298955420294485217658123590874779777170349213498081268626870735486362985163949441880720147582181271628887563398671842576555846832757375200618747794206871428212188324548303075075156056280682602132895052874968117469079420816451354937306386579531132407811368758845393354054157676302467036138032726882325965420098496963304904349388167375153735576334006670524617156433601643082215947169300390799876732149412594731766975847380381765246597802634829467651449912246434082464581317346995086251256150537928124035237009992578614096586009008543616494190902311789420736582008253718070311071383621084553180775835770469724061496143529669215344015817113070101900274126116537098431467268433251797742583611306620035380359308526278203928637547242994987913242386543058122177961644404204357267759170106906875487500315179044059743438034970938326076944112226187316993190566567884014138353953158662560883229649263926472640329278320982782375791241042921960571411556294706344505044536817133313067198105768186214210362429168571288212568882942959283218141021041117418568687728652213267088848020789199169945332129936139245383228719252273893035868598254460231967632279745794756697608592576799133645851466778398205948789359050445938620481803586918845849098953070695562525274256353752372481608547059664864851471823736998346385927414577186471277207074587807777063315088046684757653156261342711690060405549470496972159277960467894383414173766582892385315997277514591000091117902149988931070365088068420931431041403763717697382023600943215076290096677438947172077222610813124416522501578816033913911116289944286097823491634663036198440450374312200830924187250422951748744537907245250675273086010747092395118060906827036160287964300633114971305228663529388283383740969434386157850579476211022102711287721842669422153771254209311071011618512480401601758987493078059089680194131943115495741056634216005654019924844848205252285144970508433837549532973729441586863529948038519723749760595090347546016553150434208075916441701931587516381818245684807516924496000867140231478732303239608733308026052585868181848723764706371568435514755779514188004634228416297883004285815159296379402244966309278088436474587410349078040677917420380680302582930992885443541830425029023947715810780047411761122736103805850244839583984201964093458882092029614800365707089273074943951793053866941204242304035126569929488734193585086755626562557207644408558214552777399838179551247919416433577037226088378525768053055818588309993207671474634661844054782015621738261889217778983973493545759454009487157700888043922306683114587620554550367829189493548307007505723315278123277110416574068590813496580548715717666148355260988441504752249067705560056285686993814397008316562428206020531945496956305631585708431023419509141566075140963323802081042060657969008320011025714571082283254403762189208134020860732986274225344048613067517792933544023344681447771852711635379457811998206571843903123924659678410546653245336947052764330174285114568869798538026944412885883987581663244038076062121978204951143849796850824254405496085673568322170821907270171219953318339406176146690076034453907470289142136852034075843411336114334725572319647956660970203750969817408124871281544520501498129829410107493764655964157558650887037628597641482299194869411378621561323634725328401089547293451175682155907886540019796963982316817864005701982814492793177800626912568480437667280467896319778808678248862161645141817810442938662746094108393978980858181070470917148636222895519049112947933209499740595293578452384814009229050593229659782064475096652609882358046445016440082956431974476169726704644040354786780502189189646575769403896739751450928356985665940404697469837611679422626459967471811661061462843270718655916656580751927316457665008870327390559451064489608937809724011911937007456154904901322237294756027053395925535889711875758394216117795430295159526058246405535824027991374910311097681736955670629992551419172587617585962379552865753571836564504068420404369331120265825688097837498727521882579578320802844848451672738755845169436816623140457847098890399460053960027261477382216323669186230419152862732642023781368220191736032312541635366962295076008226505634764711996967648690248682084491492861376960592149991659355050766333731112782986354721847509982375355105026697320835042166497932371506588791011030646029173515763307926477603479097004975764102488469886281272945262086701168107979440465893618164347841603718382496618211968705626333551089577324446133124263122080405003712756420413663240766864137523781321126816734521353419101583704064

/-- Packed state midway through the first twist for seed 105. -/
def mtT105m : Nat :=
  28013550584487791795616906231181790131325833090359805486548498235316397171309044622763467962905257767448433633534415373933182445465969663381493835212362264732171564684305545272245983420404760238477311025097351836441693213736222539046523777179440457279051376574674839708976246003300171580168926909901667292661459799161811257531568609091872699045983731953520825137649039110535403210176771833680103288490818295464952206486135011723338050148759249203904875139160915254808580619881067651607294128219674317556800168638362819698569542655190135886278619726802675414055498596346900013333287373200267726549709023434630330165173740214889367295188778616766677928290447700657847080454819763874044703856619719467322897135886679053500642588324169691825420632028623570425573899745409455942533399512803251095141142131987002221782071445419106868533530799510381121750172458665804033996068835252616050292374072358046530621550130875098700198434315780606775245448244176199662372477055304450368853696187632601659277671662214043460262150705162773957399242965448408856703669342746511916985114120087231557315495413694354907460442309485339353496209185835677159489746317908324710311884735428655228598583405441700151876286320894077980566830857814729359198226335478600802305627769297838205195470164020011566081398930124435359950223876613774949043549107951958175586624586916859397095761860402263845937878116470500650691120262732963638555979477191484525194458610298189246418744922909903695298955420294485217658123590874779777170349213498081268626870735486362985163949441880720147582181271628887563398671842576555846832757375200618747794206871428212188324548303075075156056280682602132895052874968117469079420816451354937306386579531132407811368758845393354054157676302467036138032726882325965420098496963304904349388167375153735576334006670524617156433601643082215947169300390799876732149412594731766975847380381765246597802634829467651449912246434082464581317346995086251256150537928124035237009992578614096586009008543616494190902311789420736582008253718070311071383621084553180775835770469724061496143529669215344015817113070101900274126116537098431467268433251797742583611306620035380359308526278203928637547242994987913242386543058122177961644404204357267759170106906875487500315179044059743438034970938326076944112226187316993190566567884014138353953158662560883229649263926472640329278320982782375791241042921960571411556294706344505044536817133313067198105768186214210362429168571288212568882942959283218141021041117418568687728652213267088848020789199169945332129936139245383228719252273893035868598254460231967632279745794756697608592576799133645851466778398205948789359050445938620481803586918845849098953070695562525274256353752372481608547059664864851471823736998346385927414577186471277207074587807777063315088046684757653156261342711690060405549470496972159277960467894383414173766582892385315997277514591000091117902149988931070365088068420931431041403763717697382023600943215076290096677438947172077222610813124416522501579579396333510970296206163424069827204805041260721567516780961208838514108666104736891550722331560959843269350997647342316286497086548174106691458759194282585089127584435680141530913945337052444899157086674168543702642402620297636008566269381435988648258018588479666522614342232949389226774320294278470064114279192069605195885255789220401973928962586967615640076838325213032903546207154033637384441788750758182922176111201501247186602016836822304564099977152608350348103912096387497294682712060470794475540782838852081389030685845641557586809534550596685762581999482738042798521993264088341659047916767690316127804056949783143850523524252349984170172923503556596375491956959899638396743610832699082403543903227252959343283286758166269914571373165655313822550988123240800856894290577780784630896408859244865155549475713313874269304091563368024150605123197602341378326168895003037091812022522980302756838076011133514228362866549916234441149139028409735878659055589597300466649623848354035325524998440202360481736539066220064738185676825885340006050531114561106059358247352065063893445041803380902382904360947167288972764745993797468925456590625342242567459540457833977641035707136093164148259375609505244839509638213523179841472110721133860272090670982562130720501057998481875906611167664951482033948417905803672613068814855759060619927916495673059891511696838209927662779451984595800873546908286973320629936496302127963084366463648455479633354553665686362672264688219155575128978127245682470793994246780575747698968940419221318022968725317808015641923689360641664957612371819700298965606229173614164446955723842400498492794064837840501198499037329972904695501939788202934753504257418905782237582987296419213925903573430427397003551068683467803734581494130271329354030950732303370346684732954434194976717505428114406796654393552288772114914572111760788432653058029403445878330373565626400650883783638772241934626972810669110949379140192973951800635971862055820827525460407608458047737309323785397254633828016053285709619604037968369725163582874441018257549713083284147796900395761609973850745983700840682709734763258080070571102773270664576831857307481968431414649568115126324960063890327897900929010933271378948213834531353380498403400365270538811112221567585777199548317804801420659815187838169520445738542244080854798026174352936248291886299052305931447926185494972736201503278738285376860652067926407358766687873339929433047534450443516402737240280013852935410327367689300977139900954636802417527898995810891667665895019340422750169613285317001336846654554311516521067063301413586830796700191615919347814655214242534602312354645875368629570592975480881604656464538128381330964251637979734708878564934030861910975770451229084389402074451919706369526911668936875811577760728900117688278430339779353481124755689878247173867235887214241543572177698754239262449845476927920035047279047562411085603418405480851587260354612745584805334819615182122638841606949503956261101509442452560980235232954737272067047150

/-- Packed state of the first generated block for seed 105. -/
def mtT105 : Nat :=
  12994846049787993836559115674967850412145309182522440614103631286756560829852865497932172647188545306010014088439195087879654458251509420527798454831295182860098086127273769484496956012626829677341598860348145121484184316524253088921481826267815079216366922076089793219614151080536014858793345842261097813814199989790121197547022749036237199822031897049252705299927971087467222126975215633206388874521789859232153421432471524513637898721405966308225609481056478556445905658040877314339091770599697291441323429848251387390026904286179371285024072158787742178457640757719062907481667449292892562337103829985253342491060641070333680178881503951481298021414067211233502501676851981002797288160294911239449341834856187040289034639285247233785024816268383214505580364273215373875366994937642353090540430263913181598225840296159865666550081119289100795050584772784495594915472532312157110823003824997383993475028153629147462115020742926557023092315874384071758025543774901492470407175157422732224233523140615761365672634103390367608593018910080762479723044725122559993164373042357960152543827068089911015978796955939032093660344508612836122800160263797083023455716099004227401805774360354814569844149658099742289156704586125319601598190618546265261412670645700710055668467772040586450168060164027770503875139975062526789502718179381365659439536010144798261850053075442218108862452539029900163262625538944397431939923470122668836269943585229606672572704645590440621569405759468362262186567984301355304391011211620343916932784411478660479450490380767226993257607559613470037694731211624503083193352492058118072413782432101197345508692394950373787601324629649782645340983546518360555159024303295424039138476277576827765574188585072149117682742777284986776413112399188702545457338812346552111805987245966479662457725978211472726913104646592443222743094601727080457476430090522381338041115818471114261791478360808342902141217106943682953464300889172735397916769129394224252471776255417027200330360833856594784755239287997975311608822136068726522542848642457723356330948587191974493866952103999872807730036924881109673146364856899380629670474409101401297994176033442329734926653861011437164657185383820795610691334841642046202897479745637366211432262787240533539781793474365143116811551334858549189729464274527127398297167812893279833020954970322766480240333072889114234568892882433402194082464553624371462319566923726189790787805411789318531975804777203934072131181679933972487990042013749998943503642561732825612207627968439946210415338818427261368209497810909209615604494439419295898227379958914851965737900774035928884301033343377657557408501324008682538674702403176377424339238679549099351285291970357192337457166854170950943197649259190934809673804855855198994936063568149546470063506429726372787595260520301797764359491132303535771754771628702366819464770992181885458568410716094249531086426354353147624284361412576692771129806133237574358574480794607873651723731239852585856741462904766638482950523712052610445322301782659754020601433222835668678709514350534958475573902385059985376369885406396045609795879683104498729512563792494628777789102883436584406009672165124051711735463035241378054208663766945084962489094081848588975623412865843228376180835767611367281518209497446384786505131548383671495544729590451872199697692178506058336593806714375093998071065781689248816065318603111471824500183587928179788120447084602789582083261722433648149050587660690578981947742172297887489210592468056128347545523141758119675776234515016589194168686303028621363280036509535478849482784717307236367496461053440745304186129181984285516020404653247164859858345887634527979422441491634102363972484155484159889225047118751730352312317940228725039492855779777972035646935090709567691681050752345995347494531966601593295478191397737013312622774927581084455405413449197614224753196503890335357012743496593152896996073513493731199288059541466695495842396497085409169205186438057944160703687904624585561068271878815460802911240760213572685370923733272015518590345578567396412353311545760015072261313500831754052865766197547426955564810533893504811669855472522899185348350551746644386931797191423564794356326604533338568530006150456291024042641014385246806218877498926244523616083085941671387653632132520201995399821879720710840570563328739301984349586592127764691603451712908206072702053073118852906963649302709470537128775424385124881378741949261029510891912436941996001069368869017565366050041310426403592783945438907822048001614257218433233735065892000155274958693311746955602535918687189510191657806840656173644261407983765284304715751371122275698697581836465618508948743716119476143021380636600559660254299570059093916467020290619031378629747927810111353107942958302705614000006962054548384434969752124646843738261291465094876701819557156088757496148617366704870953101459165392695462349933249404274994498066023397976580018591589531232129655328027372618488422246938573958183874132943410542269321871140744899446022537466601908801093513002731909918277523943050856942017020477370998093451208180121957755300289543510386231444276940889089167278533258336685253682500153498103641420668413222940106364608614052934246407510054932745184117725543366085020921640154071943335320764135785298740654820983492670990716040938794374426443560122366011760657697422820314466878601541394465233570476655276831812543340917978665245814288725507652752358960429458213322662379708131742419503705066863517407616421336159012656840552930883329665205688533683174760739897125337470242854318242263948309781000771870794934412814465511926596700152817418918880525235339042389342774687458874426175829821636266370881207978914348566275398509672701115092345983558156592375415235537605573840568166103773233566338219971278222250583830266195488898568490440299286778449124293163914402179686177006634310823722437582708632539563327434080908437604004437102014995036979790240732165312376159496316676025940408979412757409437246116683837142203757018252399306518377091037961262905540334

/-! ## Range facts about the generator draws -/

/-- The rejection loop never returns a value `≥ n` (fuel exhaustion
returns 0). -/
theorem randbelowLoop_lt (n k : Nat) (hn : 0 < n) :
    ∀ (fuel : Nat) (s : MTState), (randbelowLoop n k fuel s).1 < n := by
  intro fuel
  induction fuel with
  | zero => intro s; simpa [randbelowLoop] using hn
  | succ m ih =>
    intro s
    simp only [randbelowLoop]
    split
    · assumption
    · exact ih _

/-- `_randbelow(n)` lies in `[0, n)` for positive `n`. -/
theorem randbelow_lt (n : Nat) (hn : 0 < n) (s : MTState) : (randbelow n s).1 < n := by
  unfold randbelow
  rw [if_neg (Nat.pos_iff_ne_zero.mp hn)]
  exact randbelowLoop_lt n (bitLength n) hn 64 s

/-- `randint(a, b)` lies in the closed interval `[a, b]` whenever
`a ≤ b`: both endpoints are inclusive. -/
theorem randint_mem (a b : Int) (hab : a ≤ b) (s : MTState) :
    a ≤ (randint a b s).1 ∧ (randint a b s).1 ≤ b := by
  have hpos : 0 < (b + 1 - a).toNat := by omega
  have hlt : (randbelow (b + 1 - a).toNat s).1 < (b + 1 - a).toNat :=
    randbelow_lt _ hpos s
  unfold randint
  simp only [Int.ofNat_eq_coe]
  refine ⟨?_, ?_⟩ <;> omega

/-- The two radius bounds of line 120 are ordered: `int(m*0.3)` and
`int(m*0.6)` arise from the same rounded significand, shifted by 54
and 53 bits respectively. -/
theorem glowRadiusLo_le_hi (m : Nat) : glowRadiusLo m ≤ glowRadiusHi m := by
  simp only [glowRadiusLo, glowRadiusHi, floatMulTrunc, Nat.shiftRight_eq_div_pow]
  exact Nat.div_le_div_left (Nat.pow_le_pow_right (by norm_num) (by norm_num)) (by positivity)

/-- Field ranges of a single glow blob: the five draws of lines 118–121
land in their inclusive ranges, and blue is the constant 255. -/
theorem drawBlob_fields (w h : Int) (hw : 0 ≤ w) (hh : 0 ≤ h) (g : MTState) :
    0 ≤ ((drawBlob w h g).1).cx ∧ ((drawBlob w h g).1).cx ≤ w ∧
    0 ≤ ((drawBlob w h g).1).cy ∧ ((drawBlob w h g).1).cy ≤ h ∧
    Int.ofNat (glowRadiusLo (min w h).toNat) ≤ ((drawBlob w h g).1).radius ∧
    ((drawBlob w h g).1).radius ≤ Int.ofNat (glowRadiusHi (min w h).toNat) ∧
    80 ≤ ((drawBlob w h g).1).red ∧ ((drawBlob w h g).1).red ≤ 180 ∧
    80 ≤ ((drawBlob w h g).1).green ∧ ((drawBlob w h g).1).green ≤ 180 ∧
    ((drawBlob w h g).1).blue = 255 := by
  have h1 := randint_mem 0 w hw g
  have h2 := randint_mem 0 h hh (randint 0 w g).2
  have h3 := randint_mem (Int.ofNat (glowRadiusLo (min w h).toNat))
    (Int.ofNat (glowRadiusHi (min w h).toNat))
    (Int.ofNat_le.mpr (glowRadiusLo_le_hi (min w h).toNat))
    (randint 0 h (randint 0 w g).2).2
  have h4 := randint_mem 80 180 (by norm_num)
    (randint (Int.ofNat (glowRadiusLo (min w h).toNat))
      (Int.ofNat (glowRadiusHi (min w h).toNat)) (randint 0 h (randint 0 w g).2).2).2
  have h5 := randint_mem 80 180 (by norm_num)
    (randint 80 180 (randint (Int.ofNat (glowRadiusLo (min w h).toNat))
      (Int.ofNat (glowRadiusHi (min w h).toNat)) (randint 0 h (randint 0 w g).2).2).2).2
  exact ⟨h1.1, h1.2, h2.1, h2.2, h3.1, h3.2, h4.1, h4.2, h5.1, h5.2, rfl⟩

/-- The glow loop draws exactly `n` blobs. -/
theorem drawBlobs_length (n : Nat) (w h : Int) :
    ∀ g : MTState, ((drawBlobs n w h g).1).length = n := by
  induction n with
  | zero => intro g; rfl
  | succ m ih => intro g; simp only [drawBlobs, List.length_cons, ih]

/-- Every blob the glow loop draws satisfies the field ranges. -/
theorem drawBlobs_mem (n : Nat) (w h : Int) (hw : 0 ≤ w) (hh : 0 ≤ h) :
    ∀ (g : MTState), ∀ b ∈ (drawBlobs n w h g).1,
      0 ≤ b.cx ∧ b.cx ≤ w ∧ 0 ≤ b.cy ∧ b.cy ≤ h ∧
      Int.ofNat (glowRadiusLo (min w h).toNat) ≤ b.radius ∧
      b.radius ≤ Int.ofNat (glowRadiusHi (min w h).toNat) ∧
      80 ≤ b.red ∧ b.red ≤ 180 ∧ 80 ≤ b.green ∧ b.green ≤ 180 ∧ b.blue = 255 := by
  induction n with
  | zero => intro g b hb; simp [drawBlobs] at hb
  | succ m ih =>
    intro g b hb
    simp only [drawBlobs, List.mem_cons] at hb
    rcases hb with rfl | hb2
    · exact drawBlob_fields w h hw hh g
    · exact ih _ b hb2

/-! ## Structure of the greedy wrapper -/

/-- Appending a single element is injective on both parts. -/
theorem append_singleton_inj {α : Type} {l1 l2 : List α} {a b : α}
    (h : l1 ++ [a] = l2 ++ [b]) : l1 = l2 ∧ a = b := by
  have h2 := congrArg List.reverse h
  simp only [List.reverse_append, List.reverse_cons, List.reverse_nil, List.nil_append,
    List.singleton_append, List.cons.injEq] at h2
  refine ⟨?_, h2.1⟩
  have h3 := congrArg List.reverse h2.2
  simpa using h3

/-- Length of `" ".join(ws)` for a nonempty word list: the word lengths
plus one separator between consecutive words. -/
theorem joinWords_length : ∀ ws : List String, ws ≠ [] →
    (joinWords ws).length + 1 = (ws.map String.length).sum + ws.length := by
  intro ws
  induction ws with
  | nil => intro h; exact absurd rfl h
  | cons a l ih =>
    intro _
    cases l with
    | nil => simp [joinWords]
    | cons b m =>
      have ihh := ih (by simp)
      have hsp : (" " : String).length = 1 := rfl
      simp only [joinWords, String.length_append, hsp, List.map_cons, List.sum_cons,
        List.length_cons] at *
      omega

/-- The loop guard of line 148 equals the length of the candidate joined
line `" ".join(line + [w])`. -/
theorem lineCost_eq (line : List String) (w : String) :
    lineCost line w = (joinWords (line ++ [w])).length := by
  have h := joinWords_length (line ++ [w]) (by simp)
  simp only [List.map_append, List.sum_append, List.length_append, List.map_cons,
    List.sum_cons, List.map_nil, List.sum_nil, List.length_cons, List.length_nil] at h
  simp only [lineCost]
  omega

/-- The word loop emits exactly the joined chunks after the already
emitted lines. -/
theorem wrapAux_eq_chunks (mc : Nat) : ∀ ws line lines,
    wrapAux mc ws line lines = lines ++ (wrapChunks mc ws line).map joinWords := by
  intro ws
  induction ws with
  | nil =>
    intro line lines
    simp only [wrapAux, wrapChunks]
    by_cases h : line.isEmpty <;> simp [h]
  | cons w ws ih =>
    intro line lines
    simp only [wrapAux, wrapChunks]
    by_cases h : lineCost line w > mc
    · rw [if_pos h, if_pos h, ih, List.map_cons]
      simp [List.append_assoc]
    · rw [if_neg h, if_neg h, ih]

/-- The chunks partition the word list: flattening them restores the
pending line followed by the remaining words. -/
theorem wrapChunks_flatten (mc : Nat) : ∀ ws line,
    (wrapChunks mc ws line).flatten = line ++ ws := by
  intro ws
  induction ws with
  | nil =>
    intro line
    by_cases h : line.isEmpty
    · simp only [wrapChunks, if_pos h]
      simp [List.isEmpty_iff.mp h]
    · simp only [wrapChunks, if_neg h]
      simp
  | cons w ws ih =>
    intro line
    simp only [wrapChunks]
    by_cases h : lineCost line w > mc
    · rw [if_pos h]
      simp only [List.flatten_cons, ih [w]]
      simp
    · rw [if_neg h]
      rw [ih (line ++ [w])]
      simp

/-- Greedy fit invariant: if every word of the pending line after its
first fitted when appended, the same holds inside every emitted chunk. -/
theorem wrapChunks_good (mc : Nat) : ∀ ws line,
    (∀ p w s, line = p ++ w :: s → p ≠ [] → lineCost p w ≤ mc) →
    ∀ c ∈ wrapChunks mc ws line, ∀ p w s, c = p ++ w :: s → p ≠ [] → lineCost p w ≤ mc := by
  intro ws
  induction ws with
  | nil =>
    intro line hl c hc
    simp only [wrapChunks] at hc
    split at hc
    · simp at hc
    · simp only [List.mem_singleton] at hc
      subst hc
      exact hl
  | cons w ws ih =>
    intro line hl c hc
    simp only [wrapChunks] at hc
    by_cases h : lineCost line w > mc
    · rw [if_pos h] at hc
      rcases List.mem_cons.mp hc with rfl | hc2
      · exact hl
      · refine ih [w] ?_ c hc2
        intro p v s hpv hp
        rcases p with _ | ⟨x, xs⟩
        · exact absurd rfl hp
        · exfalso
          have hlen := congrArg List.length hpv
          simp only [List.length_append, List.length_cons, List.length_nil] at hlen
          omega
    · rw [if_neg h] at hc
      refine ih (line ++ [w]) ?_ c hc
      intro p v s hpv hp
      rcases s.eq_nil_or_concat with rfl | ⟨s2, x, rfl⟩
      · have h2 : p ++ [v] = line ++ [w] := hpv.symm
        obtain ⟨rfl, rfl⟩ := append_singleton_inj h2
        omega
      · have h2 : (p ++ v :: s2) ++ [x] = line ++ [w] := by
          simpa using hpv.symm
        obtain ⟨h3, rfl⟩ := append_singleton_inj h2
        exact hl p v s2 h3.symm hp

/-- The first chunk extends the pending nonempty line. -/
theorem wrapChunks_head (mc : Nat) : ∀ ws line, line ≠ [] →
    ∃ rest tail, wrapChunks mc ws line = (line ++ rest) :: tail := by
  intro ws
  induction ws with
  | nil =>
    intro line hl
    refine ⟨[], [], ?_⟩
    simp only [wrapChunks, if_neg (fun hemp => hl (List.isEmpty_iff.mp hemp))]
    simp
  | cons w ws ih =>
    intro line hl
    simp only [wrapChunks]
    by_cases h : lineCost line w > mc
    · exact ⟨[], wrapChunks mc ws [w], by rw [if_pos h]; simp⟩
    · obtain ⟨rest, tail, heq⟩ := ih (line ++ [w]) (by simp)
      exact ⟨w :: rest, tail, by rw [if_neg h, heq]; simp⟩

/-- Greedy overflow invariant: each emitted chunk was closed because the
first word of the next chunk would not fit on it. -/
theorem wrapChunks_chain (mc : Nat) : ∀ ws line,
    List.Chain' (fun c d => mc < lineCost c (d.headD "")) (wrapChunks mc ws line) := by
  intro ws
  induction ws with
  | nil =>
    intro line
    by_cases h : line.isEmpty <;> simp [wrapChunks, h]
  | cons w ws ih =>
    intro line
    simp only [wrapChunks]
    by_cases h : lineCost line w > mc
    · rw [if_pos h]
      obtain ⟨rest, tail, heq⟩ := wrapChunks_head mc ws [w] (by simp)
      rw [heq]
      refine List.chain'_cons.mpr ⟨?_, ?_⟩
      · simpa using h
      · rw [← heq]
        exact ih [w]
    · rw [if_neg h]
      exact ih (line ++ [w])

/-! ## Concrete generator states for the evaluated seeds -/

/-- Iteration composes over the trip count. -/
theorem iterSt_add {α : Type} (f : α → α) (a b : Nat) (s : α) :
    iterSt f (a + b) s = iterSt f b (iterSt f a s) := by
  induction a generalizing s with
  | zero => rw [Nat.zero_add]; rfl
  | succ n ih =>
    have h1 : n + 1 + b = (n + b) + 1 := by omega
    rw [h1]
    show iterSt f (n + b) (f s) = iterSt f b (iterSt f n (f s))
    exact ih (f s)

/-- First half of `init_genrand(19650218)`. -/
theorem initGenrand_mid : iterSt igStep 312 (u32mod 19650218, 1) = (mtIGm, 313) := by decide

/-- Shared first seeding phase: `init_genrand(19650218)`. -/
theorem initGenrand_base : init_genrand 19650218 = mtIG := by
  unfold init_genrand
  rw [show (623 : Nat) = 312 + 311 from rfl, iterSt_add, initGenrand_mid]
  decide

/-- First half of the first mixing loop for key `[289]`. -/
theorem seedPhase1_289_mid :
    iterSt (ibaStep1 [289]) 312 (mtIG, 1, 0) = (mtA289m, 313, 0) := by decide

/-- First mixing loop for key `[289]`. -/
theorem seedPhase1_289 : seedPhase1 [289] = (mtA289, 2, 0) := by
  unfold seedPhase1
  rw [initGenrand_base]
  show iterSt (ibaStep1 [289]) (312 + 312) (mtIG, 1, 0) = (mtA289, 2, 0)
  rw [iterSt_add, seedPhase1_289_mid]
  decide

/-- First half of the second mixing loop for key `[289]`. -/
theorem seedPhase2_289_mid :
    iterSt ibaStep2 312 (mtA289, 2) = (mtB289m, 314) := by decide

/-- Full seeding for key `[289]`. -/
theorem init_by_array_289 : init_by_array [289] = mtS289 := by
  unfold init_by_array seedPhase2
  rw [seedPhase1_289]
  show setWord (iterSt ibaStep2 (312 + 311) (mtA289, 2)).1 0 2147483648 = mtS289
  rw [iterSt_add, seedPhase2_289_mid]
  decide

/-- The freshly seeded generator for seed 289. -/
theorem mkRandom_289 : mkRandom 289 = { mt := mtS289, idx := 624 } := by
  have hk : seedKey (289 : Int) = [289] := by decide
  unfold mkRandom
  rw [hk, init_by_array_289]

/-- First half of the first twist for seed 289. -/
theorem twist_289_mid : iterSt twistStep 312 (mtS289, 0) = (mtT289m, 312) := by decide

/-- First generated block for seed 289. -/
theorem twist_289 : twist mtS289 = mtT289 := by
  unfold twist
  rw [show (624 : Nat) = 312 + 312 from rfl, iterSt_add, twist_289_mid]
  decide

/-- First half of the first mixing loop for key `[105]`. -/
theorem seedPhase1_105_mid :
    iterSt (ibaStep1 [105]) 312 (mtIG, 1, 0) = (mtA105m, 313, 0) := by decide

/-- First mixing loop for key `[105]`. -/
theorem seedPhase1_105 : seedPhase1 [105] = (mtA105, 2, 0) := by
  unfold seedPhase1
  rw [initGenrand_base]
  show iterSt (ibaStep1 [105]) (312 + 312) (mtIG, 1, 0) = (mtA105, 2, 0)
  rw [iterSt_add, seedPhase1_105_mid]
  decide

/-- First half of the second mixing loop for key `[105]`. -/
theorem seedPhase2_105_mid :
    iterSt ibaStep2 312 (mtA105, 2) = (mtB105m, 314) := by decide

/-- Full seeding for key `[105]`. -/
theorem init_by_array_105 : init_by_array [105] = mtS105 := by
  unfold init_by_array seedPhase2
  rw [seedPhase1_105]
  show setWord (iterSt ibaStep2 (312 + 311) (mtA105, 2)).1 0 2147483648 = mtS105
  rw [iterSt_add, seedPhase2_105_mid]
  decide

/-- The freshly seeded generator for seed 105. -/
theorem mkRandom_105 : mkRandom 105 = { mt := mtS105, idx := 624 } := by
  have hk : seedKey (105 : Int) = [105] := by decide
  unfold mkRandom
  rw [hk, init_by_array_105]

/-- First half of the first twist for seed 105. -/
theorem twist_105_mid : iterSt twistStep 312 (mtS105, 0) = (mtT105m, 312) := by decide

/-- First generated block for seed 105. -/
theorem twist_105 : twist mtS105 = mtT105 := by
  unfold twist
  rw [show (624 : Nat) = 312 + 312 from rfl, iterSt_add, twist_105_mid]
  decide

/-- Drawing from the freshly seeded generator for seed 289 behaves like
drawing from its precomputed first block at index 0. -/
theorem genrand_289 :
    genrandU32 { mt := mtS289, idx := 624 } = genrandU32 { mt := mtT289, idx := 0 } := by
  show (temper (getWord (twist mtS289) 0), MTState.mk (twist mtS289) 1)
      = (temper (getWord mtT289 0), MTState.mk mtT289 (0 + 1))
  rw [twist_289]

/-- Drawing from the freshly seeded generator for seed 105 behaves like
drawing from its precomputed first block at index 0. -/
theorem genrand_105 :
    genrandU32 { mt := mtS105, idx := 624 } = genrandU32 { mt := mtT105, idx := 0 } := by
  show (temper (getWord (twist mtS105) 0), MTState.mk (twist mtS105) 1)
      = (temper (getWord mtT105 0), MTState.mk mtT105 (0 + 1))
  rw [twist_105]

/-! ## Draw-level congruence

After the first 32-bit draw the threaded states coincide, so every
downstream value depends on the starting state only through that first
draw. -/

/-- `getrandbits` depends on the state only through the one draw. -/
theorem getrandbits_congr (k : Nat) {s1 s2 : MTState}
    (h : genrandU32 s1 = genrandU32 s2) : getrandbits k s1 = getrandbits k s2 := by
  unfold getrandbits
  rw [h]

/-- The rejection loop with nonzero fuel depends on the state only
through the first draw. -/
theorem randbelowLoop_congr (n k fuel : Nat) {s1 s2 : MTState}
    (h : genrandU32 s1 = genrandU32 s2) :
    randbelowLoop n k (fuel + 1) s1 = randbelowLoop n k (fuel + 1) s2 := by
  simp only [randbelowLoop]
  rw [getrandbits_congr k h]

/-- `_randbelow` on a nonzero bound depends on the state only through
the first draw. -/
theorem randbelow_congr (n : Nat) (hn : n ≠ 0) {s1 s2 : MTState}
    (h : genrandU32 s1 = genrandU32 s2) : randbelow n s1 = randbelow n s2 := by
  unfold randbelow
  rw [if_neg hn, if_neg hn]
  exact randbelowLoop_congr n (bitLength n) 63 h

/-- `randint` over a nonempty range depends on the state only through
the first draw. -/
theorem randint_congr (a b : Int) (hn : (b + 1 - a).toNat ≠ 0) {s1 s2 : MTState}
    (h : genrandU32 s1 = genrandU32 s2) : randint a b s1 = randint a b s2 := by
  unfold randint
  rw [randbelow_congr _ hn h]

/-- One glow-blob draw depends on the state only through the first
32-bit draw. -/
theorem drawBlob_congr (w h : Int) (hw : (w + 1 - 0).toNat ≠ 0) {s1 s2 : MTState}
    (hg : genrandU32 s1 = genrandU32 s2) : drawBlob w h s1 = drawBlob w h s2 := by
  unfold drawBlob
  rw [randint_congr 0 w hw hg]

/-- A nonempty glow loop depends on the state only through the first
32-bit draw. -/
theorem drawBlobs_congr (n : Nat) (w h : Int) (hw : (w + 1 - 0).toNat ≠ 0) {s1 s2 : MTState}
    (hg : genrandU32 s1 = genrandU32 s2) :
    drawBlobs (n + 1) w h s1 = drawBlobs (n + 1) w h s2 := by
  simp only [drawBlobs]
  rw [drawBlob_congr w h hw hg]

/-! ## Seed-assignment arithmetic -/

/-- Folding bytes below 256 in base 256 stays below `(acc+1) * 256^len`. -/
theorem byteFold_lt : ∀ (bs : List Nat) (acc : Nat), (∀ b ∈ bs, b < 256) →
    bs.foldl (fun a b => a * 256 + b) acc < (acc + 1) * 256 ^ bs.length := by
  intro bs
  induction bs with
  | nil =>
    intro acc _
    simp only [List.foldl_nil, List.length_nil, pow_zero, Nat.mul_one]
    omega
  | cons b t ih =>
    intro acc h
    have hb : b < 256 := h b (List.mem_cons_self b t)
    have ht := ih (acc * 256 + b) (fun x hx => h x (List.mem_cons_of_mem b hx))
    have hstep : (acc * 256 + b + 1) * 256 ^ t.length ≤ ((acc + 1) * 256) * 256 ^ t.length :=
      Nat.mul_le_mul_right _ (by omega)
    calc List.foldl (fun a b => a * 256 + b) (acc * 256 + b) t
        < (acc * 256 + b + 1) * 256 ^ t.length := ht
      _ ≤ ((acc + 1) * 256) * 256 ^ t.length := hstep
      _ = (acc + 1) * 256 ^ (t.length + 1) := by ring

/-- Four bytes below 256 read big-endian give a value below 2^32. -/
theorem bytesToNatBE_lt (bs : List Nat) (hlen : bs.length = 4)
    (h : ∀ b ∈ bs, b < 256) : bytesToNatBE bs < 4294967296 := by
  have := byteFold_lt bs 0 h
  rw [hlen] at this
  simpa [bytesToNatBE] using this

/-! ## Claims -/

/-- C1: for a fixed (prompt, width, height, seed) tuple, two independent
invocations of the synthesizer produce identical render plans — hence
identical pixel buffers and identical PNG/base64 encodings once the
deterministic rasterizer and encoder are applied.  The pseudo-random
sequence is scoped per call (a fresh `random.Random(seed)` on line 110),
so no per-call context can make the outputs differ. -/
theorem c1_synthesis_deterministic (ctx1 ctx2 : CallContext) (prompt : String)
    (w h seed : Int) (rasterize : RenderPlan → List Nat) (encode : List Nat → String) :
    synthesizeCall ctx1 prompt w h seed = synthesizeCall ctx2 prompt w h seed ∧
    rasterize (synthesizeCall ctx1 prompt w h seed)
      = rasterize (synthesizeCall ctx2 prompt w h seed) ∧
    encode (rasterize (synthesizeCall ctx1 prompt w h seed))
      = encode (rasterize (synthesizeCall ctx2 prompt w h seed)) :=
  ⟨rfl, rfl, rfl⟩

/-- C2 (amended): the synthesizer composites exactly 3 radial glow
blobs, drawn in order from the seed-determined sequence; per blob the
center x is uniform on the closed range [0, width] (Python `randint`
includes both endpoints), center y on [0, height], the radius on
[int(0.3*min(w,h)), int(0.6*min(w,h))] (float products truncated toward
zero), red and green on [80, 180], and blue is fixed at 255. -/
theorem c2_blob_draws (prompt : String) (w h seed : Int) (hw : 0 ≤ w) (hh : 0 ≤ h) :
    (synthesize prompt w h seed).blobs = (drawBlobs 3 w h (mkRandom seed)).1 ∧
    (synthesize prompt w h seed).blobs.length = 3 ∧
    ∀ b ∈ (synthesize prompt w h seed).blobs,
      0 ≤ b.cx ∧ b.cx ≤ w ∧ 0 ≤ b.cy ∧ b.cy ≤ h ∧
      Int.ofNat (glowRadiusLo (min w h).toNat) ≤ b.radius ∧
      b.radius ≤ Int.ofNat (glowRadiusHi (min w h).toNat) ∧
      80 ≤ b.red ∧ b.red ≤ 180 ∧ 80 ≤ b.green ∧ b.green ≤ 180 ∧ b.blue = 255 := by
  refine ⟨rfl, ?_, ?_⟩
  · exact drawBlobs_length 3 w h (mkRandom seed)
  · intro b hb
    exact drawBlobs_mem 3 w h hw hh (mkRandom seed) b hb

theorem c2_blob_draws_witness :
    (0 : Int) ≤ 768 ∧ (synthesize "A cat" 768 768 42).blobs.length = 3 :=
  ⟨by decide, (c2_blob_draws "A cat" 768 768 42 (by decide) (by decide)).2.1⟩

/-- Blob list of the seed-289 evaluation, rerooted at the precomputed
first generated block. -/
theorem blobsEval_289 :
    (synthesize "A cat" 768 768 289).blobs
      = (drawBlobs 3 768 768 (MTState.mk mtT289 0)).1 := by
  show (drawBlobs 3 768 768 (mkRandom 289)).1
      = (drawBlobs 3 768 768 (MTState.mk mtT289 0)).1
  rw [mkRandom_289]
  rw [drawBlobs_congr 2 768 768 (by decide) genrand_289]

/-- Blob list of the seed-105 evaluation, rerooted at the precomputed
first generated block. -/
theorem blobsEval_105 :
    (synthesize "A cat" 256 256 105).blobs
      = (drawBlobs 3 256 256 (MTState.mk mtT105 0)).1 := by
  show (drawBlobs 3 256 256 (mkRandom 105)).1
      = (drawBlobs 3 256 256 (MTState.mk mtT105 0)).1
  rw [mkRandom_105]
  rw [drawBlobs_congr 2 256 256 (by decide) genrand_105]

/-- C2 (counterexample): at seed 289 with width = height = 768 the first
blob's center x equals 768 = width, refuting the half-open range
[0, width); at seed 105 with width = height = 256 the first blob's
radius is 76, and 10*76 < 3*256 shows it lies strictly below
0.3 * min(width, height) = 76.8, refuting the real-valued lower bound. -/
theorem c2_counterexample :
    ¬ (∀ b ∈ (synthesize "A cat" 768 768 289).blobs, b.cx < 768) ∧
    ((synthesize "A cat" 768 768 289).blobs.headD (GlowBlob.mk 0 0 0 0 0 0)).cx = 768 ∧
    ((synthesize "A cat" 256 256 105).blobs.headD (GlowBlob.mk 0 0 0 0 0 0)).radius = 76 ∧
    10 * 76 < 3 * 256 := by
  refine ⟨?_, ?_, ?_, by norm_num⟩
  · rw [blobsEval_289]
    decide
  · rw [blobsEval_289]
    decide
  · rw [blobsEval_105]
    decide

/-- C3: every line `wrap_text` produces is a whitespace-join of a run of
consecutive input words; the runs, in input order, are filled greedily —
a word joins the current line unless the joined line including it and
its inter-word spaces would exceed the maximum width, in which case the
line is emitted and a new line starts with that word. -/
theorem c3_wrap_greedy (text : String) (maxChars : Nat) :
    ∃ cs : List (List String),
      wrap_text text maxChars = (cs.map joinWords).take 6 ∧
      cs.flatten = pySplit text ∧
      (∀ c ∈ cs, ∀ p w s, c = p ++ w :: s → p ≠ [] →
        (joinWords (p ++ [w])).length ≤ maxChars) ∧
      List.Chain' (fun c d => maxChars < (joinWords (c ++ [d.headD ""])).length) cs := by
  refine ⟨wrapChunks maxChars (pySplit text) [], ?_, ?_, ?_, ?_⟩
  · unfold wrap_text
    rw [wrapAux_eq_chunks]
    rfl
  · exact wrapChunks_flatten maxChars (pySplit text) []
  · intro c hc p w s hsplit hp
    rw [← lineCost_eq]
    refine wrapChunks_good maxChars (pySplit text) [] ?_ c hc p w s hsplit hp
    intro p2 w2 s2 habs _
    exact absurd habs.symm (by simp)
  · refine List.Chain'.imp ?_ (wrapChunks_chain maxChars (pySplit text) [])
    intro c d hcd
    rwa [lineCost_eq] at hcd

/-- C4: the wrapper is a total function of its inputs (hence
deterministic); an input with no words yields the empty line sequence;
the output never exceeds 6 lines, and when the greedy chunking yields
more than 6 lines exactly the first 6 survive `lines[:6]`. -/
theorem c4_wrap_truncation (text : String) (maxChars : Nat) :
    (pySplit text = [] → wrap_text text maxChars = []) ∧
    (wrap_text text maxChars).length ≤ 6 ∧
    wrap_text text maxChars
      = ((wrapChunks maxChars (pySplit text) []).map joinWords).take 6 ∧
    (6 < (wrapChunks maxChars (pySplit text) []).length →
      (wrap_text text maxChars).length = 6) := by
  have hbase : wrap_text text maxChars
      = ((wrapChunks maxChars (pySplit text) []).map joinWords).take 6 := by
    unfold wrap_text
    rw [wrapAux_eq_chunks]
    rfl
  refine ⟨?_, ?_, hbase, ?_⟩
  · intro h
    unfold wrap_text
    rw [h]
    rfl
  · rw [hbase]
    exact List.length_take_le 6 _
  · intro h
    rw [hbase]
    simp only [List.length_take, List.length_map]
    omega

theorem c4_wrap_truncation_witness :
    pySplit "   " = [] ∧ wrap_text "   " 32 = [] ∧
    6 < (wrapChunks 1 (pySplit "a b c d e f g h") []).length ∧
    (wrap_text "a b c d e f g h" 1).length = 6 :=
  ⟨by decide, (c4_wrap_truncation "   " 32).1 (by decide), by decide,
   (c4_wrap_truncation "a b c d e f g h" 1).2.2.2 (by decide)⟩

/-- C5: a request with width or height outside [256, 1024] or prompt
length outside [2, 280] is rejected by validation (HTTP 422) before any
synthesis work — the outcome does not depend on the rasterizer — while
prompts of length exactly 2 or 280 with in-range dimensions pass
validation and reach the handler body. -/
theorem c5_validation (req : GenerateRequest) (u : List Nat)
    (rz rz2 : Nat → RenderPlan → Except String String) (now : String) :
    ((req.width < 256 ∨ 1024 < req.width ∨ req.height < 256 ∨ 1024 < req.height ∨
      req.prompt.length < 2 ∨ 280 < req.prompt.length) →
        generate_image req u rz now = HttpResult.validationError ∧
        statusCode (generate_image req u rz now) = 422 ∧
        generate_image req u rz now = generate_image req u rz2 now) ∧
    ((req.prompt.length = 2 ∨ req.prompt.length = 280) →
      256 ≤ req.width → req.width ≤ 1024 → 256 ≤ req.height → req.height ≤ 1024 →
        validRequest req = true ∧
        generate_image req u rz now ≠ HttpResult.validationError) := by
  constructor
  · intro hbad
    have hv : validRequest req = false := by
      rcases Bool.eq_false_or_eq_true (validRequest req) with h | h
      · exfalso
        simp only [validRequest, Bool.and_eq_true, decide_eq_true_eq] at h
        obtain ⟨⟨⟨⟨⟨h1, h2⟩, h3⟩, h4⟩, h5⟩, h6⟩ := h
        rcases hbad with hb | hb | hb | hb | hb | hb <;> omega
      · exact h
    refine ⟨?_, ?_, ?_⟩ <;> simp [generate_image, hv, statusCode]
  · intro hp h1 h2 h3 h4
    have hv : validRequest req = true := by
      simp only [validRequest, Bool.and_eq_true, decide_eq_true_eq]
      rcases hp with hp | hp <;> omega
    refine ⟨hv, ?_⟩
    simp only [generate_image, hv, if_true]
    split <;> simp

theorem c5_validation_witness :
    generate_image (GenerateRequest.mk "valid prompt" 100 768 none) []
        (fun _ _ => Except.ok "x") "t" = HttpResult.validationError ∧
    validRequest (GenerateRequest.mk "ab" 768 768 none) = true :=
  ⟨((c5_validation (GenerateRequest.mk "valid prompt" 100 768 none) []
      (fun _ _ => Except.ok "x") (fun _ _ => Except.ok "x") "t").1 (by norm_num)).1,
   ((c5_validation (GenerateRequest.mk "ab" 768 768 none) []
      (fun _ _ => Except.ok "x") (fun _ _ => Except.ok "x") "t").2 (by decide)
      (by norm_num) (by norm_num) (by norm_num) (by norm_num)).1⟩

/-- C6: an absent seed is replaced by 4 `os.urandom` bytes interpreted
as a big-endian unsigned 32-bit integer, so the resolved seed lies in
[0, 2^32); on success the response carries that concrete integer seed
(the response field is a plain integer — never null). -/
theorem c6_seed_assignment (req : GenerateRequest) (u : List Nat)
    (rz : Nat → RenderPlan → Except String String) (now : String) (b64 : String)
    (hlen : u.length = 4) (hbytes : ∀ b ∈ u, b < 256) :
    (0 ≤ resolvedSeed none u ∧ resolvedSeed none u < 4294967296) ∧
    (req.seed = none → validRequest req = true →
      rz 0 (synthesize req.prompt req.width req.height (resolvedSeed none u))
          = Except.ok b64 →
      generate_image req u rz now
        = HttpResult.ok (GenerateResponse.mk b64 "image/png" req.width req.height
            req.prompt (resolvedSeed none u) now)) := by
  constructor
  · refine ⟨Int.ofNat_nonneg _, ?_⟩
    have hb := bytesToNatBE_lt u hlen hbytes
    show Int.ofNat (bytesToNatBE u) < 4294967296
    exact Int.ofNat_lt.mpr hb
  · intro hs hv hrz
    have hres : resolvedSeed req.seed u = resolvedSeed none u := by rw [hs]
    simp only [generate_image, hv, if_true, hres, hrz]

theorem c6_seed_assignment_witness :
    ([1, 2, 3, 4] : List Nat).length = 4 ∧
    (0 ≤ resolvedSeed none [1, 2, 3, 4] ∧ resolvedSeed none [1, 2, 3, 4] < 4294967296) ∧
    generate_image (GenerateRequest.mk "ab" 768 768 none) [1, 2, 3, 4]
        (fun _ _ => Except.ok "img") "t"
      = HttpResult.ok (GenerateResponse.mk "img" "image/png" 768 768 "ab"
          (resolvedSeed none [1, 2, 3, 4]) "t") := by
  refine ⟨rfl, ?_, ?_⟩
  · exact (c6_seed_assignment (GenerateRequest.mk "ab" 768 768 none) [1, 2, 3, 4]
      (fun _ _ => Except.ok "img") "t" "img" rfl (by decide)).1
  · exact (c6_seed_assignment (GenerateRequest.mk "ab" 768 768 none) [1, 2, 3, 4]
      (fun _ _ => Except.ok "img") "t" "img" rfl (by decide)).2 rfl (by decide) rfl

/-- C7 (amended): if the synthesis/encoding attempt raises, the handler
responds 500 with detail "Generation failed: " followed by the full
exception message — no truncation is applied — and the outcome depends
only on the first attempt: the operation is not retried. -/
theorem c7_error_path (req : GenerateRequest) (u : List Nat)
    (rz rz2 : Nat → RenderPlan → Except String String) (now : String) (e : String)
    (hv : validRequest req = true) :
    (rz 0 (synthesize req.prompt req.width req.height (resolvedSeed req.seed u))
        = Except.error e →
      generate_image req u rz now = HttpResult.serverError ("Generation failed: " ++ e) ∧
      statusCode (generate_image req u rz now) = 500) ∧
    ((∀ plan, rz 0 plan = rz2 0 plan) →
      generate_image req u rz now = generate_image req u rz2 now) := by
  constructor
  · intro hrz
    constructor <;> simp [generate_image, hv, hrz, statusCode]
  · intro hagree
    simp only [generate_image, hv, if_true, hagree]

theorem c7_error_path_witness :
    validRequest (GenerateRequest.mk "ab" 768 768 (some 1)) = true ∧
    generate_image (GenerateRequest.mk "ab" 768 768 (some 1)) []
        (fun _ _ => Except.error "boom") "t"
      = HttpResult.serverError ("Generation failed: " ++ "boom") :=
  ⟨by decide, ((c7_error_path (GenerateRequest.mk "ab" 768 768 (some 1)) []
      (fun _ _ => Except.error "boom") (fun _ _ => Except.error "boom") "t" "boom"
      (by decide)).1 rfl).1⟩

/-- C7 (counterexample): the 500 detail carries the exception message in
full.  A 60-character message appears untruncated in the detail — its
50-character truncation (the diagnostic width used elsewhere in this
service) differs from it — so the detail is not a truncated form of the
message. -/
theorem c7_counterexample :
    generate_image (GenerateRequest.mk "ab" 768 768 (some 1)) []
        (fun _ _ => Except.error "aaaaaaaaaaaaaaaaaaaaaaaaaaaaaaaaaaaaaaaaaaaaaaaaaaaaaaaaaaaa") "t"
      = HttpResult.serverError
          ("Generation failed: " ++ "aaaaaaaaaaaaaaaaaaaaaaaaaaaaaaaaaaaaaaaaaaaaaaaaaaaaaaaaaaaa") ∧
    ("aaaaaaaaaaaaaaaaaaaaaaaaaaaaaaaaaaaaaaaaaaaaaaaaaaaaaaaaaaaa" : String).length = 60 ∧
    truncate50 "aaaaaaaaaaaaaaaaaaaaaaaaaaaaaaaaaaaaaaaaaaaaaaaaaaaaaaaaaaaa"
      ≠ "aaaaaaaaaaaaaaaaaaaaaaaaaaaaaaaaaaaaaaaaaaaaaaaaaaaaaaaaaaaa" := by
  refine ⟨rfl, by decide, by decide⟩

/-- C8: the diagnostics endpoint is a total function of its collaborator
outcomes — every probe failure is consumed as a value, never rethrown;
with no database module the database field reports the module as not
found and the collections list is empty; a collection-listing failure
is likewise summarized as a truncated status string. -/
theorem c8_diagnostics (env : EnvConfig) (imp : DbImport) (db : DbHandle) (e : String) :
    (test_database DbImport.moduleMissing env).database
        = "❌ Database module not found (run enable-database first)" ∧
    (test_database DbImport.moduleMissing env).collections = [] ∧
    (db.listCollectionNames = Except.error e →
      (test_database (DbImport.available (some db)) env).database
          = "⚠️  Connected but Error: " ++ truncate50 e ∧
      (test_database (DbImport.available (some db)) env).collections = []) ∧
    (∃ r : DiagResponse, test_database imp env = r) := by
  refine ⟨rfl, rfl, ?_, ⟨_, rfl⟩⟩
  intro h
  constructor <;> simp [test_database, h]

theorem c8_diagnostics_witness :
    (DbHandle.mk (some "db") (Except.error "boom")).listCollectionNames
        = Except.error "boom" ∧
    (test_database (DbImport.available (some (DbHandle.mk (some "db") (Except.error "boom"))))
        (EnvConfig.mk false false)).database
      = "⚠️  Connected but Error: " ++ truncate50 "boom" :=
  ⟨rfl, ((c8_diagnostics (EnvConfig.mk false false) DbImport.moduleMissing
      (DbHandle.mk (some "db") (Except.error "boom")) "boom").2.2.1 rfl).1⟩

/-- C9: a first word longer than the width, met on an empty current
line, makes the wrapper emit the empty string as a line and place the
overlong word alone on the next line, which therefore exceeds the
stated maximum — output lines may be empty strings and may be longer
than the maximum. -/
theorem c9_overlong_word (text : String) (mc : Nat) (w : String) (ws : List String)
    (hsplit : pySplit text = w :: ws) (hlong : mc < w.length) :
    ∃ rest, wrap_text text mc = "" :: w :: rest ∧ mc < w.length := by
  have hbase : wrap_text text mc
      = ((wrapChunks mc (pySplit text) []).map joinWords).take 6 := by
    unfold wrap_text
    rw [wrapAux_eq_chunks]
    rfl
  rw [hbase, hsplit]
  have h1 : lineCost [] w > mc := by simpa [lineCost] using hlong
  have h2 : wrapChunks mc (w :: ws) [] = [] :: wrapChunks mc ws [w] := by
    simp only [wrapChunks, if_pos h1]
  rw [h2]
  cases ws with
  | nil =>
    refine ⟨[], ?_, hlong⟩
    simp [wrapChunks, joinWords]
  | cons v vs =>
    have h3 : lineCost [w] v > mc := by
      simp only [lineCost, List.map_cons, List.map_nil, List.sum_cons, List.sum_nil,
        List.length_cons, List.length_nil]
      omega
    have h4 : wrapChunks mc (v :: vs) [w] = [w] :: wrapChunks mc vs [v] := by
      simp only [wrapChunks, if_pos h3]
    rw [h4]
    exact ⟨((wrapChunks mc vs [v]).map joinWords).take 4, rfl, hlong⟩

theorem c9_overlong_word_witness :
    pySplit "abcdefghij xy" = "abcdefghij" :: ["xy"] ∧ (5 : Nat) < 10 ∧
    (∃ rest, wrap_text "abcdefghij xy" 5 = "" :: "abcdefghij" :: rest ∧
      5 < ("abcdefghij" : String).length) :=
  ⟨by decide, by decide,
   c9_overlong_word "abcdefghij xy" 5 "abcdefghij" ["xy"] (by decide) (by decide)⟩

/-- C10: on success the response echoes the request's width, height and
prompt verbatim (copied, not measured), and a supplied seed — any
integer, negative included, since validation never inspects the seed —
is echoed exactly. -/
theorem c10_response_echo (req : GenerateRequest) (u : List Nat)
    (rz : Nat → RenderPlan → Except String String) (now : String) (s : Int) (b64 : String)
    (hseed : req.seed = some s) (hv : validRequest req = true)
    (hok : rz 0 (synthesize req.prompt req.width req.height s) = Except.ok b64) :
    generate_image req u rz now
      = HttpResult.ok (GenerateResponse.mk b64 "image/png" req.width req.height
          req.prompt s now) ∧
    ∀ s2 : Option Int, validRequest { req with seed := s2 } = validRequest req := by
  constructor
  · have hres : resolvedSeed req.seed u = s := by
      rw [hseed]
      rfl
    simp only [generate_image, hv, if_true, hres, hok]
  · intro s2
    rfl

theorem c10_response_echo_witness :
    validRequest (GenerateRequest.mk "ab" 768 768 (some (-7))) = true ∧
    generate_image (GenerateRequest.mk "ab" 768 768 (some (-7))) []
        (fun _ _ => Except.ok "img") "t"
      = HttpResult.ok (GenerateResponse.mk "img" "image/png" 768 768 "ab" (-7) "t") :=
  ⟨by decide, (c10_response_echo (GenerateRequest.mk "ab" 768 768 (some (-7))) []
      (fun _ _ => Except.ok "img") "t" (-7) "img" rfl (by decide) rfl).1⟩

end Backend
